import Mathlib

/-! The axp20x power button driver (`drivers/input/misc/axp20x-pek.c`).

A shallow embedding of the calibration attributes (`startup`, `shutdown`), of the
interrupt handler, of the registration gate, of setup and of the power-state
operations of the axp20x power-button driver, followed by theorems about them.

Machine integers are natural numbers; `unsigned int` arithmetic is reduced
modulo `2 ^ 32` where the C code can wrap.  Calls into the rest of the kernel
(register transport, input core, interrupt subsystem) are explicit arguments and
results.
-/

namespace Axp20xPek

/-! ## Constants and kernel helpers used by the driver -/

/-- The mask `AXP20X_PEK_STARTUP_MASK` of the startup field. -/
def AXP20X_PEK_STARTUP_MASK : Nat := 0xc0

/-- The mask `AXP20X_PEK_SHUTDOWN_MASK` of the shutdown field. -/
def AXP20X_PEK_SHUTDOWN_MASK : Nat := 0x03

/-- The largest `unsigned int`. -/
def UINT_MAX : Nat := 2 ^ 32 - 1

/-- The errno `EINVAL`. -/
def EINVAL : Int := 22

/-- The conversion of a `size_t` to the `ssize_t` a store function returns, on a
64-bit kernel: the value is taken modulo `2 ^ 64` and read as a signed 64-bit
number, so a `size_t` of `2 ^ 63` or more comes out negative. -/
def to_ssize_t (count : Nat) : Int :=
  if count % 2 ^ 64 < 2 ^ 63 then ((count % 2 ^ 64 : Nat) : Int)
  else ((count % 2 ^ 64 : Nat) : Int) - 2 ^ 64

/-- Subtraction of two `unsigned int` values, as C computes it: modulo `2 ^ 32`. -/
def u32_sub (a b : Nat) : Nat := (a % 2 ^ 32 + 2 ^ 32 - b % 2 ^ 32) % 2 ^ 32

/-- Modelled from the spec: the `abs` macro of `include/linux/math.h`, which is
not part of the driver file.  The spec calls the quantity an absolute
difference; the macro, applied to an `unsigned int`, first converts the
argument to `int` and then negates it when negative.  The result is stored in
an `unsigned int`, so `abs_u32 x` is the magnitude of the 32-bit pattern `x`
read as a two-complement number. -/
def abs_u32 (x : Nat) : Nat :=
  if x % 2 ^ 32 < 2 ^ 31 then x % 2 ^ 32 else 2 ^ 32 - x % 2 ^ 32

/-- Search for the first set bit of `x`, at position `pos` and above, looking at
`fuel` bits; positions are counted from 1. -/
def ffs_from : Nat → Nat → Nat → Nat
  | 0, _, _ => 0
  | fuel + 1, x, pos =>
    if x % 2 = 1 then pos + 1 else ffs_from fuel (x / 2) (pos + 1)

/-- Modelled from the spec: the kernel helper `ffs`, which is not part of the
driver file: the position of the lowest set bit of a 32-bit word, counted from
1, and 0 for the word 0 (the spec: "shift amount = position of the lowest set
bit" of the mask).  The driver shifts by `ffs(mask) - 1`; for the mask 0, where
C would shift by -1, the subtraction here stops at 0. -/
def ffs (x : Nat) : Nat := ffs_from 32 (x % 2 ^ 32) 0

/-! ## Data model -/

/-- The C `struct axp20x_time`: a duration in milliseconds and the register
field value that encodes it. -/
structure axp20x_time where
  time : Nat
  idx : Nat
deriving DecidableEq, Repr

/-- The C `struct axp20x_info`: the two duration tables of a variant, each of
four entries, and the masks of their register fields. -/
structure struct_axp20x_info where
  startup_time : Fin 4 → axp20x_time
  startup_mask : Nat
  shutdown_time : Fin 4 → axp20x_time
  shutdown_mask : Nat

/-- The table `startup_time`. -/
def startup_time : Fin 4 → axp20x_time
  | 0 => { time := 128, idx := 0 }
  | 1 => { time := 1000, idx := 2 }
  | 2 => { time := 3000, idx := 1 }
  | 3 => { time := 2000, idx := 3 }

/-- The table `axp221_startup_time`. -/
def axp221_startup_time : Fin 4 → axp20x_time
  | 0 => { time := 128, idx := 0 }
  | 1 => { time := 1000, idx := 1 }
  | 2 => { time := 2000, idx := 2 }
  | 3 => { time := 3000, idx := 3 }

/-- The table `shutdown_time`. -/
def shutdown_time : Fin 4 → axp20x_time
  | 0 => { time := 4000, idx := 0 }
  | 1 => { time := 6000, idx := 1 }
  | 2 => { time := 8000, idx := 2 }
  | 3 => { time := 10000, idx := 3 }

/-- The profile `axp20x_info`. -/
def axp20x_info : struct_axp20x_info where
  startup_time := startup_time
  startup_mask := AXP20X_PEK_STARTUP_MASK
  shutdown_time := shutdown_time
  shutdown_mask := AXP20X_PEK_SHUTDOWN_MASK

/-- The profile `axp221_info`. -/
def axp221_info : struct_axp20x_info where
  startup_time := axp221_startup_time
  startup_mask := AXP20X_PEK_STARTUP_MASK
  shutdown_time := shutdown_time
  shutdown_mask := AXP20X_PEK_SHUTDOWN_MASK

/-! ## The write path: `axp20x_store_attr` -/

/-- The loop `for (i = 3; i >= 0; i--)` of `axp20x_store_attr`, run over the
positions still to visit, with the current `best_err` and `idx`.  An entry
replaces the best match only on a strictly smaller error, and the loop stops
at an error of zero. -/
def store_scan (time : Fin 4 → axp20x_time) (val : Nat) :
    List (Fin 4) → Nat → Nat → Nat
  | [], _, idx => idx
  | i :: rest, best_err, idx =>
    let err := abs_u32 (u32_sub (time i).time val)
    let best_err1 := if err < best_err then err else best_err
    let idx1 := if err < best_err then (time i).idx else idx
    if err = 0 then idx1 else store_scan time val rest best_err1 idx1

/-- The `idx` that `axp20x_store_attr` holds when its loop ends: the scan from
position 3 down to 0, started with `best_err = UINT_MAX` and `idx = 0`. -/
def store_select (time : Fin 4 → axp20x_time) (val : Nat) : Nat :=
  store_scan time val [3, 2, 1, 0] UINT_MAX 0

/-- The value `axp20x_store_attr` hands to `regmap_update_bits`: the selected
`idx` after `idx <<= ffs(mask) - 1`, an `unsigned int`. -/
def store_update_val (time : Fin 4 → axp20x_time) (mask val : Nat) : Nat :=
  (store_select time val <<< (ffs mask - 1)) % 2 ^ 32

/-- Modelled from the spec: the register transport (`regmap`), which is not part
of the driver file, as the driver sees it: the content of the register
`AXP20X_PEK_KEY`, the return codes the next `regmap_read` and
`regmap_update_bits` give (0 for success), and the updates issued so far, each
as the pair of mask and value. -/
structure regmap where
  pek_key : Nat
  read_ret : Int
  update_ret : Int
  updates : List (Nat × Nat)

/-- The complement `~x` of an `unsigned int`. -/
def u32_not (x : Nat) : Nat := 2 ^ 32 - 1 - x % 2 ^ 32

/-- The register value a successful `update_bits(mask, val)` leaves behind:
`(r & ~mask) | (val & mask)`. -/
def update_bits_value (r mask val : Nat) : Nat :=
  (r &&& u32_not mask) ||| (val &&& mask)

/-- Modelled from the spec: `regmap_read` on `AXP20X_PEK_KEY`
("read(address) -> (value, ok)"): the return code and the value read. -/
def regmap_read (m : regmap) : Int × Nat := (m.read_ret, m.pek_key)

/-- Modelled from the spec: `regmap_update_bits` on `AXP20X_PEK_KEY`
("update_bits(address, mask, value) -> ok"): the return code and the transport
afterwards.  A successful update is a read-modify-write at the mask; a failing
one leaves the register as it was. -/
def regmap_update_bits (m : regmap) (mask val : Nat) : Int × regmap :=
  (m.update_ret,
   { m with
     pek_key := if m.update_ret = 0 then update_bits_value m.pek_key mask val
                else m.pek_key
     updates := m.updates ++ [(mask, val)] })

deriving instance DecidableEq for Except

/-- The value of a decimal digit character, if it is one. -/
def digit_val (c : Char) : Option Nat :=
  if 48 ≤ c.toNat ∧ c.toNat ≤ 57 then some (c.toNat - 48) else none

/-- The leading decimal digits of a text: their value, how many there are, and
the rest of the text. -/
def parse_integer : List Char → Nat → Nat → Nat × Nat × List Char
  | [], res, n => (res, n, [])
  | c :: cs, res, n =>
    match digit_val c with
    | some d => parse_integer cs (res * 10 + d) (n + 1)
    | none => (res, n, c :: cs)

/-- Modelled from the spec: the kernel helper `kstrtouint(buf, 10, &val)`, which
is not part of the driver file.  The spec: the write "accepts a decimal
millisecond value (whitespace-trimmed)", the text is parsed "as a base-10
unsigned integer" and the parse "fails with `InvalidInput` if not parseable".
So blanks around the text are dropped, what is left has to be one or more
decimal digits whose value fits an `unsigned int`, and every other text fails
with `-EINVAL`. -/
def kstrtouint (buf : List Char) : Except Int Nat :=
  let s := ((buf.dropWhile Char.isWhitespace).reverse.dropWhile Char.isWhitespace).reverse
  match parse_integer s 0 0 with
  | (res, n, rest) =>
    if n = 0 then Except.error (-EINVAL)
    else if rest ≠ [] then Except.error (-EINVAL)
    else if 2 ^ 32 ≤ res then Except.error (-EINVAL)
    else Except.ok res

/-- The function `axp20x_store_attr`: the `ssize_t` it returns and the transport
afterwards.  `buf` is the text written, `count` the `size_t` length the caller
passes; `return count;` converts it to `ssize_t`. -/
def axp20x_store_attr (time : Fin 4 → axp20x_time) (mask : Nat)
    (buf : List Char) (count : Nat) (m : regmap) : Int × regmap :=
  match kstrtouint buf with
  | Except.error ret => (ret, m)
  | Except.ok val =>
    let upd := regmap_update_bits m mask (store_update_val time mask val)
    if upd.1 ≠ 0 then (-EINVAL, upd.2) else (to_ssize_t count, upd.2)

/-! ## The read path: `axp20x_show_attr` -/

/-- The loop `for (i = 0; i < 4; i++)` of `axp20x_show_attr`, run over the
positions still to visit: `val` is replaced by the duration of an entry whose
`idx` it equals, and the loop goes on with the new `val`. -/
def show_scan (time : Fin 4 → axp20x_time) : List (Fin 4) → Nat → Nat
  | [], val => val
  | i :: rest, val =>
    show_scan time rest (if val = (time i).idx then (time i).time else val)

/-- The field the read path extracts: `val &= mask; val >>= ffs(mask) - 1`. -/
def show_field (mask r : Nat) : Nat := (r &&& mask) >>> (ffs mask - 1)

/-- The number `axp20x_show_attr` prints for the register value `r`. -/
def show_value (time : Fin 4 → axp20x_time) (mask r : Nat) : Nat :=
  show_scan time [0, 1, 2, 3] (show_field mask r)

/-- The text `sprintf(buf, "%u\n", val)` writes. -/
def render (val : Nat) : String := toString val ++ "\n"

/-- The function `axp20x_show_attr`: the `ssize_t` it returns and the text it
wrote to `buf`, if it wrote. -/
def axp20x_show_attr (time : Fin 4 → axp20x_time) (mask : Nat) (m : regmap) :
    Int × Option String :=
  let rd := regmap_read m
  if rd.1 ≠ 0 then (rd.1, none)
  else
    let text := render (show_value time mask rd.2)
    ((text.length : Int), some text)

/-! ## The interrupt handler: `axp20x_pek_irq` -/

/-- The key code `KEY_POWER`. -/
def KEY_POWER : Nat := 116

/-- The return value `IRQ_HANDLED`. -/
def IRQ_HANDLED : Nat := 1

/-- A call the handler makes on the input device: `input_report_key` with the
key code and the pressed flag, or `input_sync`. -/
inductive input_call where
  | report_key (code : Nat) (pressed : Bool)
  | sync
deriving DecidableEq, Repr

/-- The C `struct axp20x_pek`: the variant of the parent chip, whether an input
device is attached, the profile, and the two interrupt ids. -/
structure axp20x_pek where
  variant : Nat
  input : Bool
  info : Option struct_axp20x_info
  irq_dbr : Int
  irq_dbf : Int

/-- The function `axp20x_pek_irq`: the calls it makes on the input device, in
order, the controller afterwards, and the value it returns. -/
def axp20x_pek_irq (irq : Int) (pek : axp20x_pek) :
    List input_call × axp20x_pek × Nat :=
  let reported :=
    if irq = pek.irq_dbf then [input_call.report_key KEY_POWER true]
    else if irq = pek.irq_dbr then [input_call.report_key KEY_POWER false]
    else []
  (reported ++ [input_call.sync], pek, IRQ_HANDLED)

/-- The error `err` the write loop computes at position `i` for the requested
value `val`: `abs(time[i].time - val)`. -/
def store_err (time : Fin 4 → axp20x_time) (val : Nat) (i : Fin 4) : Nat :=
  abs_u32 (u32_sub (time i).time val)

/-- A table whose last two entries are 500 ms (idx 0) and 1500 ms (idx 1), the
other two being farther from 1000 ms; used to exercise the tie-break. -/
def tie_example_time : Fin 4 → axp20x_time
  | 0 => { time := 5000, idx := 2 }
  | 1 => { time := 9000, idx := 3 }
  | 2 => { time := 500, idx := 0 }
  | 3 => { time := 1500, idx := 1 }

/-- A table with pairwise distinct idx values in which the duration of the first
entry, 1, is the idx of the second entry; used to exercise the lookup loop of
the read path. -/
def chain_example_time : Fin 4 → axp20x_time
  | 0 => { time := 1, idx := 0 }
  | 1 => { time := 5, idx := 1 }
  | 2 => { time := 6000, idx := 2 }
  | 3 => { time := 7000, idx := 3 }

/-! ## The registration gate: `axp20x_pek_should_register_input` -/

/-- Modelled from the spec: the enumerator `AXP288_ID` of
`include/linux/mfd/axp20x.h`, which is not part of the driver file.  The driver
only compares the variant of the chip with it, so its value plays no role. -/
def AXP288_ID : Nat := 6

/-- The errno `ENOMEM`. -/
def ENOMEM : Int := 12

/-- What the gate consults outside the controller: whether the kernel is built
with `CONFIG_INPUT_SOC_BUTTON_ARRAY`, what `soc_intel_is_cht()` returns, and
which devices the firmware table declares (`acpi_dev_present`). -/
structure gate_env where
  config_input_soc_button_array : Bool
  soc_intel_is_cht : Bool
  acpi_dev_present : String → Bool

/-- The function `axp20x_pek_should_register_input`. -/
def axp20x_pek_should_register_input (env : gate_env) (pek : axp20x_pek) : Bool :=
  if env.config_input_soc_button_array && pek.variant == AXP288_ID then
    if env.soc_intel_is_cht &&
        (env.acpi_dev_present "INTCFD9" || env.acpi_dev_present "ACPI0011") then
      false
    else true
  else true

/-! ## Setup: `axp20x_pek_probe_input_device` and `axp20x_pek_probe` -/

/-- A call setup makes into the rest of the kernel. -/
inductive setup_call where
  | get_irq_byname (name : String)
  | get_virq (irq : Int)
  | allocate_device
  | set_capability (code : Nat)
  | request_irq (irq : Int) (name : String)
  | register_device
  | init_wakeup (enable : Bool)
deriving DecidableEq, Repr

/-- What the calls of setup return: `platform_get_irq_byname` for the two names
(negative on failure), `regmap_irq_get_virq`, whether
`devm_input_allocate_device` returns a device, `devm_request_any_context_irq`
for the release and for the press interrupt (negative on failure), and
`input_register_device` (non-zero on failure). -/
structure setup_env where
  get_irq_dbr : Int
  get_irq_dbf : Int
  get_virq : Int → Int
  allocate_ok : Bool
  request_dbr : Int
  request_dbf : Int
  register_ret : Int

/-- The function `axp20x_pek_probe_input_device`: the value it returns, the
controller afterwards, and the calls it made, in order. -/
def axp20x_pek_probe_input_device (env : setup_env) (pek : axp20x_pek) :
    Int × axp20x_pek × List setup_call :=
  let pek1 := { pek with irq_dbr := env.get_irq_dbr }
  let t1 := [setup_call.get_irq_byname "PEK_DBR"]
  if pek1.irq_dbr < 0 then (pek1.irq_dbr, pek1, t1)
  else
    let pek2 := { pek1 with irq_dbr := env.get_virq pek1.irq_dbr }
    let t2 := t1 ++ [setup_call.get_virq pek1.irq_dbr]
    let pek3 := { pek2 with irq_dbf := env.get_irq_dbf }
    let t3 := t2 ++ [setup_call.get_irq_byname "PEK_DBF"]
    if pek3.irq_dbf < 0 then (pek3.irq_dbf, pek3, t3)
    else
      let pek4 := { pek3 with irq_dbf := env.get_virq pek3.irq_dbf }
      let t4 := t3 ++ [setup_call.get_virq pek3.irq_dbf]
      let t5 := t4 ++ [setup_call.allocate_device]
      let pek5 := { pek4 with input := env.allocate_ok }
      if !env.allocate_ok then (-ENOMEM, pek5, t5)
      else
        let t6 := t5 ++ [setup_call.set_capability KEY_POWER]
        let t7 := t6 ++ [setup_call.request_irq pek5.irq_dbr "axp20x-pek-dbr"]
        if env.request_dbr < 0 then (env.request_dbr, pek5, t7)
        else
          let t8 := t7 ++ [setup_call.request_irq pek5.irq_dbf "axp20x-pek-dbf"]
          if env.request_dbf < 0 then (env.request_dbf, pek5, t8)
          else
            let t9 := t8 ++ [setup_call.register_device]
            if env.register_ret ≠ 0 then (env.register_ret, pek5, t9)
            else (0, pek5, t9 ++ [setup_call.init_wakeup true])

/-- What `axp20x_pek_probe` finds: the profile of the matching device id, if
any, whether `devm_kzalloc` succeeds, the variant of the parent chip, and what
the gate and setup see. -/
structure probe_env where
  device_id : Option struct_axp20x_info
  kzalloc_ok : Bool
  variant : Nat
  gate : gate_env
  setup : setup_env

/-- The function `axp20x_pek_probe`: the value it returns, the controller it
stored as driver data, if it did, and the setup calls made. -/
def axp20x_pek_probe (env : probe_env) : Int × Option axp20x_pek × List setup_call :=
  match env.device_id with
  | none => (-EINVAL, none, [])
  | some info =>
    if !env.kzalloc_ok then (-ENOMEM, none, [])
    else
      let pek0 : axp20x_pek :=
        { variant := env.variant, input := false, info := none, irq_dbr := 0, irq_dbf := 0 }
      if axp20x_pek_should_register_input env.gate pek0 then
        let r := axp20x_pek_probe_input_device env.setup pek0
        if r.1 ≠ 0 then (r.1, none, r.2.2)
        else (0, some { r.2.1 with info := some info }, r.2.2)
      else (0, some { pek0 with info := some info }, [])

/-! ## Power-state operations: suspend, resume, shutdown -/

/-- A call the power-state operations make on the interrupt subsystem. -/
inductive irq_call where
  | enable_irq_wake (irq : Int)
  | disable_irq_wake (irq : Int)
  | disable_irq (irq : Int)
  | enable_irq (irq : Int)
deriving DecidableEq, Repr

/-- The state the interrupt subsystem keeps for one interrupt: how many times it
has been disabled (`depth`, enabled when 0) and how many times it has been
marked as a wake source (`wake_depth`, wake-marked when positive). -/
structure irq_desc where
  depth : Nat
  wake_depth : Nat
deriving DecidableEq, Repr

/-- Modelled from the spec: the interrupt subsystem, which is not part of the
driver file ("enable/disable/mark_wake/unmark_wake(virtual_irq_id)"): the
state of every interrupt and the calls received so far.  As in the kernel the
calls nest: each keeps a count per interrupt. -/
structure irq_state where
  desc : Int → irq_desc
  calls : List irq_call

/-- Modelled from the spec: `disable_irq`, one more level of disabling. -/
def disable_irq (s : irq_state) (irq : Int) : irq_state :=
  { desc := Function.update s.desc irq { s.desc irq with depth := (s.desc irq).depth + 1 }
    calls := s.calls ++ [irq_call.disable_irq irq] }

/-- Modelled from the spec: `enable_irq`, one level of disabling less; an
interrupt that is not disabled stays as it is. -/
def enable_irq (s : irq_state) (irq : Int) : irq_state :=
  { desc := Function.update s.desc irq { s.desc irq with depth := (s.desc irq).depth - 1 }
    calls := s.calls ++ [irq_call.enable_irq irq] }

/-- Modelled from the spec: `enable_irq_wake`, one more wake mark. -/
def enable_irq_wake (s : irq_state) (irq : Int) : irq_state :=
  { desc := Function.update s.desc irq
      { s.desc irq with wake_depth := (s.desc irq).wake_depth + 1 }
    calls := s.calls ++ [irq_call.enable_irq_wake irq] }

/-- Modelled from the spec: `disable_irq_wake`, one wake mark less; an interrupt
without wake mark stays as it is. -/
def disable_irq_wake (s : irq_state) (irq : Int) : irq_state :=
  { desc := Function.update s.desc irq
      { s.desc irq with wake_depth := (s.desc irq).wake_depth - 1 }
    calls := s.calls ++ [irq_call.disable_irq_wake irq] }

/-- The function `axp20x_pek_suspend`, with what `device_may_wakeup` returns: the
value it returns and the interrupt subsystem afterwards. -/
def axp20x_pek_suspend (may_wakeup : Bool) (pek : axp20x_pek) (s : irq_state) :
    Int × irq_state :=
  if may_wakeup then
    (0, enable_irq_wake (enable_irq_wake s pek.irq_dbf) pek.irq_dbr)
  else
    (0, disable_irq (disable_irq s pek.irq_dbf) pek.irq_dbr)

/-- The function `axp20x_pek_resume`. -/
def axp20x_pek_resume (may_wakeup : Bool) (pek : axp20x_pek) (s : irq_state) :
    Int × irq_state :=
  if may_wakeup then
    (0, disable_irq_wake (disable_irq_wake s pek.irq_dbf) pek.irq_dbr)
  else
    (0, enable_irq (enable_irq s pek.irq_dbf) pek.irq_dbr)

/-- The function `axp20x_pek_shutdown`: it runs `axp20x_pek_suspend` and drops
the value returned. -/
def axp20x_pek_shutdown (may_wakeup : Bool) (pek : axp20x_pek) (s : irq_state) :
    irq_state :=
  (axp20x_pek_suspend may_wakeup pek s).2

/-- The interrupt ids a list of setup calls subscribed to. -/
def subscribed_irqs : List setup_call → List Int
  | [] => []
  | setup_call.request_irq irq _ :: rest => irq :: subscribed_irqs rest
  | _ :: rest => subscribed_irqs rest

/-- The interrupt id an interrupt call names. -/
def irq_call.irq : irq_call → Int
  | irq_call.enable_irq_wake irq => irq
  | irq_call.disable_irq_wake irq => irq
  | irq_call.disable_irq irq => irq
  | irq_call.enable_irq irq => irq

/-! ## Lemmas on the helpers and on the write scan -/

theorem abs_u32_le (x : Nat) : abs_u32 x ≤ 2 ^ 31 := by
  unfold abs_u32
  split_ifs <;> omega

theorem abs_u32_sub_eq_dist (a b : Nat) (ha : a < 2 ^ 31) (hb : b < 2 ^ 31) :
    abs_u32 (u32_sub a b) = Nat.dist a b := by
  unfold abs_u32 u32_sub Nat.dist
  split_ifs <;> omega

theorem and_or_and_mask (r x n m : Nat) (h : n &&& m = 0) :
    ((r &&& n) ||| (x &&& m)) &&& m = x &&& m := by
  apply Nat.eq_of_testBit_eq
  intro i
  have hi : (n &&& m).testBit i = false := by rw [h]; simp
  simp only [Nat.testBit_and, Nat.testBit_or] at hi ⊢
  cases hr : r.testBit i <;> cases hx : x.testBit i <;> cases hn : n.testBit i <;>
    cases hm : m.testBit i <;> simp_all

theorem store_scan_nil (time : Fin 4 → axp20x_time) (v b idx : Nat) :
    store_scan time v [] b idx = idx := rfl

theorem store_scan_cons (time : Fin 4 → axp20x_time) (v : Nat) (i : Fin 4)
    (rest : List (Fin 4)) (b idx : Nat) :
    store_scan time v (i :: rest) b idx =
      if store_err time v i = 0 then
        (if store_err time v i < b then (time i).idx else idx)
      else
        store_scan time v rest
          (if store_err time v i < b then store_err time v i else b)
          (if store_err time v i < b then (time i).idx else idx) := rfl

/-- Entries that are not strictly better than the current best leave `idx` alone. -/
theorem store_scan_keep (time : Fin 4 → axp20x_time) (v : Nat) (l : List (Fin 4)) :
    ∀ (b idx : Nat), (∀ j ∈ l, b ≤ store_err time v j) →
      store_scan time v l b idx = idx := by
  induction l with
  | nil => intro b idx _; rfl
  | cons j rest ih =>
    intro b idx h
    have hj : b ≤ store_err time v j := h j (List.mem_cons_self _ _)
    have hrest : ∀ k ∈ rest, b ≤ store_err time v k :=
      fun k hk => h k (List.mem_cons_of_mem _ hk)
    rw [store_scan_cons]
    have hnot : ¬ store_err time v j < b := Nat.not_lt.mpr hj
    simp only [hnot, if_false]
    split_ifs
    · rfl
    · exact ih b idx hrest

/-- The scan returns the `idx` of the first entry, in scan order, that attains the
smallest error, when that error is below the initial `best_err`. -/
theorem store_scan_first_min (time : Fin 4 → axp20x_time) (v : Nat) (i : Fin 4)
    (post : List (Fin 4)) (pre : List (Fin 4)) :
    ∀ (b idx : Nat), store_err time v i < b →
      (∀ j ∈ pre, store_err time v i < store_err time v j) →
      (∀ j ∈ post, store_err time v i ≤ store_err time v j) →
      store_scan time v (pre ++ i :: post) b idx = (time i).idx := by
  induction pre with
  | nil =>
    intro b idx hb _ hpost
    rw [List.nil_append, store_scan_cons]
    simp only [hb, if_true]
    split_ifs
    · rfl
    · exact store_scan_keep time v post _ _ hpost
  | cons j pre ih =>
    intro b idx hb hpre hpost
    have hj : store_err time v i < store_err time v j := hpre j (List.mem_cons_self _ _)
    have hpre1 : ∀ k ∈ pre, store_err time v i < store_err time v k :=
      fun k hk => hpre k (List.mem_cons_of_mem _ hk)
    rw [List.cons_append, store_scan_cons]
    have hne : ¬ store_err time v j = 0 := by omega
    simp only [hne, if_false]
    apply ih _ _ _ hpre1 hpost
    split_ifs <;> omega

/-- The scan returns the initial `idx` or the `idx` of a visited entry. -/
theorem store_scan_mem (time : Fin 4 → axp20x_time) (v : Nat) (l : List (Fin 4)) :
    ∀ (b idx : Nat), store_scan time v l b idx = idx ∨
      ∃ i ∈ l, store_scan time v l b idx = (time i).idx := by
  induction l with
  | nil => intro b idx; exact Or.inl rfl
  | cons j rest ih =>
    intro b idx
    rw [store_scan_cons]
    by_cases hz : store_err time v j = 0
    · simp only [hz, if_true]
      split_ifs
      · exact Or.inr ⟨j, List.mem_cons_self _ _, rfl⟩
      · exact Or.inl rfl
    · simp only [hz, if_false]
      rcases ih (if store_err time v j < b then store_err time v j else b)
          (if store_err time v j < b then (time j).idx else idx) with h | ⟨i, hi, h⟩
      · rw [h]
        split_ifs
        · exact Or.inr ⟨j, List.mem_cons_self _ _, rfl⟩
        · exact Or.inl rfl
      · exact Or.inr ⟨i, List.mem_cons_of_mem _ hi, h⟩

theorem store_select_mem (time : Fin 4 → axp20x_time) (v : Nat) :
    ∃ i, store_select time v = (time i).idx := by
  have h3 : store_err time v 3 < UINT_MAX := by
    have := abs_u32_le (u32_sub (time 3).time v)
    unfold store_err UINT_MAX
    omega
  unfold store_select
  rw [store_scan_cons]
  simp only [h3, if_true]
  split_ifs
  · exact ⟨3, rfl⟩
  · rcases store_scan_mem time v [2, 1, 0] (store_err time v 3) (time 3).idx with h | ⟨i, _, h⟩
    · exact ⟨3, h⟩
    · exact ⟨i, h⟩

theorem store_select_highest_min (time : Fin 4 → axp20x_time) (v : Nat) (i : Fin 4)
    (hmin : ∀ j, store_err time v i ≤ store_err time v j)
    (hhigh : ∀ j, i < j → store_err time v i < store_err time v j) :
    store_select time v = (time i).idx := by
  have hb : store_err time v i < UINT_MAX := by
    have := abs_u32_le (u32_sub (time i).time v)
    unfold store_err UINT_MAX
    omega
  unfold store_select
  fin_cases i
  · exact store_scan_first_min time v 0 [] [3, 2, 1] _ _ hb
      (fun j hj => hhigh j (by fin_cases j <;> simp_all)) (fun j _ => hmin j)
  · exact store_scan_first_min time v 1 [0] [3, 2] _ _ hb
      (fun j hj => hhigh j (by fin_cases j <;> simp_all)) (fun j _ => hmin j)
  · exact store_scan_first_min time v 2 [1, 0] [3] _ _ hb
      (fun j hj => hhigh j (by fin_cases j <;> simp_all)) (fun j _ => hmin j)
  · exact store_scan_first_min time v 3 [2, 1, 0] [] _ _ hb
      (fun j hj => hhigh j (by fin_cases j <;> simp_all)) (fun j _ => hmin j)


/-- Below `2 ^ 31` the scan is a nearest-value selection: the idx it returns is
that of an entry no other entry is strictly closer than. -/
theorem store_select_nearest_of_lt (time : Fin 4 → axp20x_time) (v : Nat)
    (hv : v < 2 ^ 31) (ht : ∀ j, (time j).time < 2 ^ 31) :
    ∃ i, store_select time v = (time i).idx ∧
      ∀ j, Nat.dist (time i).time v ≤ Nat.dist (time j).time v := by
  have herr : ∀ j, store_err time v j = Nat.dist (time j).time v :=
    fun j => abs_u32_sub_eq_dist _ _ (ht j) hv
  obtain ⟨i0, _, hi0⟩ :=
    Finset.exists_min_image Finset.univ (store_err time v) ⟨0, Finset.mem_univ _⟩
  obtain ⟨i, hiT, himax⟩ :=
    Finset.exists_max_image
      (Finset.univ.filter (fun j => store_err time v j = store_err time v i0)) id
      ⟨i0, by simp⟩
  have hi : store_err time v i = store_err time v i0 := by simpa using hiT
  have hmin : ∀ j, store_err time v i ≤ store_err time v j := by
    intro j
    rw [hi]
    exact hi0 j (Finset.mem_univ _)
  refine ⟨i, store_select_highest_min time v i hmin ?_, ?_⟩
  · intro j hj
    refine lt_of_le_of_ne (hmin j) (fun h => ?_)
    have hjT : j ∈ Finset.univ.filter (fun j => store_err time v j = store_err time v i0) := by
      simp [← h, hi]
    have := himax j hjT
    simp only [id] at this
    exact absurd hj (not_lt.mpr this)
  · intro j
    rw [← herr, ← herr]
    exact hmin j

/-! ## Claims on the write and read paths -/

/-- C1 (evaluated at the failing input): the text 4294967295 parses as a 32-bit
value; for it the write scan on the shutdown table selects the idx of the first
entry (4000 ms), and only that entry carries this idx, although the last entry
(10000 ms) is strictly closer to the requested value. -/
theorem store_select_uint_max_not_nearest :
    kstrtouint "4294967295".toList = Except.ok 4294967295 ∧
    store_select shutdown_time 4294967295 = (shutdown_time 0).idx ∧
    (∀ j, (shutdown_time j).idx = store_select shutdown_time 4294967295 → j = 0) ∧
    Nat.dist (shutdown_time 3).time 4294967295 <
      Nat.dist (shutdown_time 0).time 4294967295 := by
  decide

/-- C2: on both shipped profiles and for both settings, when the field extracted
from the register value `r` equals the idx of entry `i`, the read path computes
the duration of entry `i`, whatever the other bits of `r` are. -/
theorem show_value_shipped_round_trip (info : struct_axp20x_info)
    (hinfo : info = axp20x_info ∨ info = axp221_info) (r : Nat) (i : Fin 4) :
    (show_field info.startup_mask r = (info.startup_time i).idx →
      show_value info.startup_time info.startup_mask r = (info.startup_time i).time) ∧
    (show_field info.shutdown_mask r = (info.shutdown_time i).idx →
      show_value info.shutdown_time info.shutdown_mask r =
        (info.shutdown_time i).time) := by
  rcases hinfo with rfl | rfl <;> refine ⟨fun h => ?_, fun h => ?_⟩ <;>
    unfold show_value <;> rw [h] <;> fin_cases i <;> rfl

/-- Witness for C2: the register value 0x80 has startup field 2, the idx of the
1000 ms entry of `startup_time`, and the read path computes 1000. -/
theorem show_value_shipped_round_trip_witness :
    show_field axp20x_info.startup_mask 0x80 = (axp20x_info.startup_time 1).idx ∧
    show_value axp20x_info.startup_time axp20x_info.startup_mask 0x80 = 1000 :=
  ⟨by decide,
   (show_value_shipped_round_trip axp20x_info (Or.inl rfl) 0x80 1).1 (by decide)⟩

/-- After a successful update of the field, the read path looks up the field of
the value that was written. -/
theorem show_value_update (time : Fin 4 → axp20x_time) (mask r x : Nat)
    (h : u32_not mask &&& mask = 0) :
    show_value time mask (update_bits_value r mask x) =
      show_scan time [0, 1, 2, 3] ((x &&& mask) >>> (ffs mask - 1)) := by
  unfold show_value show_field update_bits_value
  rw [and_or_and_mask r x (u32_not mask) mask h]

/-- What `axp20x_show_attr` returns when the transport read succeeds. -/
theorem show_attr_of_read_ok (time : Fin 4 → axp20x_time) (mask : Nat) (m : regmap)
    (h : m.read_ret = 0) :
    axp20x_show_attr time mask m =
      (((render (show_value time mask m.pek_key)).length : Int),
        some (render (show_value time mask m.pek_key))) := by
  simp [axp20x_show_attr, regmap_read, h]

/-- C3: on both shipped profiles and for both settings, for every prior
register value `r` and every requested duration `v`, once the register holds
`(r & ~mask) | (x & mask)`, with `x` the value the write hands to update_bits,
a successful read renders the duration of the one table entry whose idx the
write selected. -/
theorem write_then_read_round_trip (info : struct_axp20x_info)
    (hinfo : info = axp20x_info ∨ info = axp221_info) (r v : Nat) (m : regmap)
    (hread : m.read_ret = 0) :
    (m.pek_key = update_bits_value r info.startup_mask
        (store_update_val info.startup_time info.startup_mask v) →
      ∃ i, (info.startup_time i).idx = store_select info.startup_time v ∧
        (∀ j, (info.startup_time j).idx = store_select info.startup_time v → j = i) ∧
        (axp20x_show_attr info.startup_time info.startup_mask m).2 =
          some (render (info.startup_time i).time)) ∧
    (m.pek_key = update_bits_value r info.shutdown_mask
        (store_update_val info.shutdown_time info.shutdown_mask v) →
      ∃ i, (info.shutdown_time i).idx = store_select info.shutdown_time v ∧
        (∀ j, (info.shutdown_time j).idx = store_select info.shutdown_time v → j = i) ∧
        (axp20x_show_attr info.shutdown_time info.shutdown_mask m).2 =
          some (render (info.shutdown_time i).time)) := by
  rcases hinfo with rfl | rfl <;> refine ⟨fun hkey => ?_, fun hkey => ?_⟩
  · obtain ⟨i, hi⟩ := store_select_mem axp20x_info.startup_time v
    refine ⟨i, hi.symm, ?_, ?_⟩
    · rw [hi]; intro j; fin_cases i <;> fin_cases j <;> decide
    · rw [show_attr_of_read_ok _ _ _ hread, hkey, show_value_update _ _ _ _ (by decide)]
      unfold store_update_val
      rw [hi]
      fin_cases i <;> rfl
  · obtain ⟨i, hi⟩ := store_select_mem axp20x_info.shutdown_time v
    refine ⟨i, hi.symm, ?_, ?_⟩
    · rw [hi]; intro j; fin_cases i <;> fin_cases j <;> decide
    · rw [show_attr_of_read_ok _ _ _ hread, hkey, show_value_update _ _ _ _ (by decide)]
      unfold store_update_val
      rw [hi]
      fin_cases i <;> rfl
  · obtain ⟨i, hi⟩ := store_select_mem axp221_info.startup_time v
    refine ⟨i, hi.symm, ?_, ?_⟩
    · rw [hi]; intro j; fin_cases i <;> fin_cases j <;> decide
    · rw [show_attr_of_read_ok _ _ _ hread, hkey, show_value_update _ _ _ _ (by decide)]
      unfold store_update_val
      rw [hi]
      fin_cases i <;> rfl
  · obtain ⟨i, hi⟩ := store_select_mem axp221_info.shutdown_time v
    refine ⟨i, hi.symm, ?_, ?_⟩
    · rw [hi]; intro j; fin_cases i <;> fin_cases j <;> decide
    · rw [show_attr_of_read_ok _ _ _ hread, hkey, show_value_update _ _ _ _ (by decide)]
      unfold store_update_val
      rw [hi]
      fin_cases i <;> rfl

/-- Witness for C3: writing the text 1500 to the shutdown setting of a device
whose register held 0xff selects idx 0, and the read that follows renders
4000 and a newline. -/
theorem write_then_read_round_trip_witness :
    store_select shutdown_time 1500 = 0 ∧
    (axp20x_show_attr shutdown_time AXP20X_PEK_SHUTDOWN_MASK
      (axp20x_store_attr shutdown_time AXP20X_PEK_SHUTDOWN_MASK "1500".toList 4
        { pek_key := 0xff, read_ret := 0, update_ret := 0, updates := [] }).2).2 =
      some "4000\n" ∧
    ∃ i, (axp20x_info.shutdown_time i).idx = store_select axp20x_info.shutdown_time 1500 ∧
      (∀ j, (axp20x_info.shutdown_time j).idx =
        store_select axp20x_info.shutdown_time 1500 → j = i) ∧
      (axp20x_show_attr axp20x_info.shutdown_time axp20x_info.shutdown_mask
        (axp20x_store_attr shutdown_time AXP20X_PEK_SHUTDOWN_MASK "1500".toList 4
          { pek_key := 0xff, read_ret := 0, update_ret := 0, updates := [] }).2).2 =
        some (render (axp20x_info.shutdown_time i).time) :=
  ⟨by decide, by decide,
   (write_then_read_round_trip axp20x_info (Or.inl rfl) 0xff 1500
      (axp20x_store_attr shutdown_time AXP20X_PEK_SHUTDOWN_MASK "1500".toList 4
        { pek_key := 0xff, read_ret := 0, update_ret := 0, updates := [] }).2
      (by decide)).2 (by decide)⟩

/-- C4: for every table of four entries and every requested duration `v`, all
durations and `v` being below `2 ^ 31`, if entry `i` attains the smallest
absolute difference to `v` and no entry at a higher position attains it too,
the write selects the idx of entry `i`: among entries that tie for the
smallest difference the one at the highest position wins. -/
theorem store_select_tie_break (time : Fin 4 → axp20x_time) (v : Nat) (i : Fin 4)
    (hv : v < 2 ^ 31) (ht : ∀ j, (time j).time < 2 ^ 31)
    (hmin : ∀ j, Nat.dist (time i).time v ≤ Nat.dist (time j).time v)
    (hhigh : ∀ j, i < j → Nat.dist (time j).time v ≠ Nat.dist (time i).time v) :
    store_select time v = (time i).idx := by
  have herr : ∀ j, store_err time v j = Nat.dist (time j).time v :=
    fun j => abs_u32_sub_eq_dist _ _ (ht j) hv
  apply store_select_highest_min
  · intro j
    rw [herr, herr]
    exact hmin j
  · intro j hj
    rw [herr, herr]
    exact lt_of_le_of_ne (hmin j) (fun h => hhigh j hj h.symm)

/-- Witness for C4: on the shutdown table 5000 is as far from 4000 as from 6000
and the write selects idx 1, that of 6000 ms; on a table ending in 500 ms
(idx 0) and 1500 ms (idx 1), 1000 selects idx 1. -/
theorem store_select_tie_break_witness :
    (Nat.dist (shutdown_time 0).time 5000 = Nat.dist (shutdown_time 1).time 5000 ∧
      store_select shutdown_time 5000 = 1) ∧
    (Nat.dist (tie_example_time 2).time 1000 = Nat.dist (tie_example_time 3).time 1000 ∧
      store_select tie_example_time 1000 = 1) :=
  ⟨⟨by decide,
    store_select_tie_break shutdown_time 5000 1 (by decide) (by decide) (by decide)
      (by decide)⟩,
   ⟨by decide,
    store_select_tie_break tie_example_time 1000 3 (by decide) (by decide) (by decide)
      (by decide)⟩⟩

/-- The update `axp20x_store_attr` issues once the text has parsed as `v`: one
`update_bits` with the mask and the shifted idx. -/
theorem store_attr_updates (time : Fin 4 → axp20x_time) (mask : Nat) (buf : List Char)
    (count : Nat) (m : regmap) (v : Nat) (h : kstrtouint buf = Except.ok v) :
    (axp20x_store_attr time mask buf count m).2.updates =
      m.updates ++ [(mask, store_update_val time mask v)] := by
  unfold axp20x_store_attr
  rw [h]
  simp only [regmap_update_bits]
  split_ifs <;> rfl

/-- C5: on both shipped profiles and for both settings, a requested duration
equal to the duration of entry `i` makes the write select the idx of entry `i`,
and the one update issued carries that idx shifted left by `ffs(mask) - 1`. -/
theorem store_exact_match (info : struct_axp20x_info)
    (hinfo : info = axp20x_info ∨ info = axp221_info) (i : Fin 4) (buf : List Char)
    (count : Nat) (m : regmap) :
    (store_select info.startup_time (info.startup_time i).time =
        (info.startup_time i).idx ∧
      (kstrtouint buf = Except.ok (info.startup_time i).time →
        (axp20x_store_attr info.startup_time info.startup_mask buf count m).2.updates =
          m.updates ++ [(info.startup_mask,
            (info.startup_time i).idx <<< (ffs info.startup_mask - 1))])) ∧
    (store_select info.shutdown_time (info.shutdown_time i).time =
        (info.shutdown_time i).idx ∧
      (kstrtouint buf = Except.ok (info.shutdown_time i).time →
        (axp20x_store_attr info.shutdown_time info.shutdown_mask buf count m).2.updates =
          m.updates ++ [(info.shutdown_mask,
            (info.shutdown_time i).idx <<< (ffs info.shutdown_mask - 1))])) := by
  rcases hinfo with rfl | rfl <;>
    refine ⟨⟨?_, fun h => ?_⟩, ⟨?_, fun h => ?_⟩⟩ <;>
    first
    | (fin_cases i <;> decide)
    | (rw [store_attr_updates _ _ _ _ _ _ h]; fin_cases i <;> rfl)

/-- Witness for C5: the text 1000 written to the startup setting of the axp20x
profile selects idx 2, and the update carries `2 << 6 = 0x80` under the mask
0xc0. -/
theorem store_exact_match_witness :
    store_select axp20x_info.startup_time 1000 = 2 ∧
    (axp20x_store_attr axp20x_info.startup_time axp20x_info.startup_mask "1000".toList 4
      { pek_key := 0, read_ret := 0, update_ret := 0, updates := [] }).2.updates =
      [(0xc0, 0x80)] :=
  ⟨(store_exact_match axp20x_info (Or.inl rfl) 1 "1000".toList 4
      { pek_key := 0, read_ret := 0, update_ret := 0, updates := [] }).1.1,
   (store_exact_match axp20x_info (Or.inl rfl) 1 "1000".toList 4
      { pek_key := 0, read_ret := 0, update_ret := 0, updates := [] }).1.2 (by decide)⟩

/-- C6: for every table of four entries and every requested duration the write
selects the idx of one of the entries; on both shipped profiles and for both
settings that idx is below 4 and the shifted value handed to update_bits has no
bit outside the mask of the setting. -/
theorem store_select_valid (time : Fin 4 → axp20x_time) (info : struct_axp20x_info)
    (hinfo : info = axp20x_info ∨ info = axp221_info) (v : Nat) :
    (∃ i, store_select time v = (time i).idx) ∧
    (store_select info.startup_time v < 4 ∧
      store_update_val info.startup_time info.startup_mask v &&&
        u32_not info.startup_mask = 0 ∧
      info.startup_mask = 0xc0) ∧
    (store_select info.shutdown_time v < 4 ∧
      store_update_val info.shutdown_time info.shutdown_mask v &&&
        u32_not info.shutdown_mask = 0 ∧
      info.shutdown_mask = 0x03) := by
  refine ⟨store_select_mem time v, ?_, ?_⟩
  · rcases hinfo with rfl | rfl
    · obtain ⟨i, hi⟩ := store_select_mem axp20x_info.startup_time v
      unfold store_update_val
      rw [hi]
      fin_cases i <;> decide
    · obtain ⟨i, hi⟩ := store_select_mem axp221_info.startup_time v
      unfold store_update_val
      rw [hi]
      fin_cases i <;> decide
  · rcases hinfo with rfl | rfl
    · obtain ⟨i, hi⟩ := store_select_mem axp20x_info.shutdown_time v
      unfold store_update_val
      rw [hi]
      fin_cases i <;> decide
    · obtain ⟨i, hi⟩ := store_select_mem axp221_info.shutdown_time v
      unfold store_update_val
      rw [hi]
      fin_cases i <;> decide

/-- Witness for C6: for the largest 32-bit request the shutdown write of the
axp221 profile selects an idx below 4 and the value it hands over stays inside
the mask 0x03. -/
theorem store_select_valid_witness :
    store_select axp221_info.shutdown_time 4294967295 < 4 ∧
    store_update_val axp221_info.shutdown_time axp221_info.shutdown_mask 4294967295 &&&
      u32_not axp221_info.shutdown_mask = 0 :=
  ⟨(store_select_valid startup_time axp221_info (Or.inr rfl) 4294967295).2.2.1,
   (store_select_valid startup_time axp221_info (Or.inr rfl) 4294967295).2.2.2.1⟩

/-- The startup mask selects a two-bit field. -/
theorem show_field_startup_lt (r : Nat) : show_field AXP20X_PEK_STARTUP_MASK r < 4 := by
  have hs : ffs AXP20X_PEK_STARTUP_MASK - 1 = 6 := by decide
  have hle : r &&& AXP20X_PEK_STARTUP_MASK ≤ 192 := Nat.and_le_right
  unfold show_field
  rw [hs, Nat.shiftRight_eq_div_pow]
  omega

/-- The shutdown mask selects a two-bit field. -/
theorem show_field_shutdown_lt (r : Nat) : show_field AXP20X_PEK_SHUTDOWN_MASK r < 4 := by
  have hs : ffs AXP20X_PEK_SHUTDOWN_MASK - 1 = 0 := by decide
  have hle : r &&& AXP20X_PEK_SHUTDOWN_MASK ≤ 3 := Nat.and_le_right
  unfold show_field
  rw [hs, Nat.shiftRight_eq_div_pow]
  omega

/-- On a table whose idx values cover 0 to 3 the lookup finds an entry. -/
theorem show_scan_shipped (time : Fin 4 → axp20x_time) (f : Nat) (hf : f < 4)
    (htab : time = startup_time ∨ time = axp221_startup_time ∨ time = shutdown_time) :
    ∃ i, f = (time i).idx ∧ show_scan time [0, 1, 2, 3] f = (time i).time := by
  rcases htab with rfl | rfl | rfl <;> interval_cases f
  all_goals first
    | exact ⟨0, rfl, rfl⟩
    | exact ⟨1, rfl, rfl⟩
    | exact ⟨2, rfl, rfl⟩
    | exact ⟨3, rfl, rfl⟩

/-- The text printed for a number is not empty. -/
theorem render_length_pos (val : Nat) : 0 < (render val).length := by
  unfold render
  rw [String.length_append]
  have : ("\n" : String).length = 1 := by decide
  omega

/-- C7: on both shipped profiles and for both settings, whenever the transport
read succeeds, with any register value, `axp20x_show_attr` succeeds: the field
it extracts is the idx of a table entry, so the raw field is never printed, and
it writes the duration of that entry in decimal followed by a newline,
returning the length of the text. -/
theorem show_attr_shipped_renders_duration (info : struct_axp20x_info)
    (hinfo : info = axp20x_info ∨ info = axp221_info) (m : regmap)
    (hread : m.read_ret = 0) :
    (∃ i, show_field info.startup_mask m.pek_key = (info.startup_time i).idx ∧
      axp20x_show_attr info.startup_time info.startup_mask m =
        (((toString (info.startup_time i).time ++ "\n").length : Int),
          some (toString (info.startup_time i).time ++ "\n")) ∧
      0 < (axp20x_show_attr info.startup_time info.startup_mask m).1) ∧
    (∃ i, show_field info.shutdown_mask m.pek_key = (info.shutdown_time i).idx ∧
      axp20x_show_attr info.shutdown_time info.shutdown_mask m =
        (((toString (info.shutdown_time i).time ++ "\n").length : Int),
          some (toString (info.shutdown_time i).time ++ "\n")) ∧
      0 < (axp20x_show_attr info.shutdown_time info.shutdown_mask m).1) := by
  have key : ∀ (time : Fin 4 → axp20x_time) (mask : Nat),
      show_field mask m.pek_key < 4 →
      (time = startup_time ∨ time = axp221_startup_time ∨ time = shutdown_time) →
      ∃ i, show_field mask m.pek_key = (time i).idx ∧
        axp20x_show_attr time mask m =
          (((toString (time i).time ++ "\n").length : Int),
            some (toString (time i).time ++ "\n")) ∧
        0 < (axp20x_show_attr time mask m).1 := by
    intro time mask hf htab
    obtain ⟨i, hidx, hval⟩ := show_scan_shipped time _ hf htab
    have hv : show_value time mask m.pek_key = (time i).time := hval
    refine ⟨i, hidx, ?_, ?_⟩
    · rw [show_attr_of_read_ok _ _ _ hread, hv]
      rfl
    · rw [show_attr_of_read_ok _ _ _ hread]
      exact Int.ofNat_lt.mpr (render_length_pos _)
  rcases hinfo with rfl | rfl
  · exact ⟨key _ _ (show_field_startup_lt _) (Or.inl rfl),
      key _ _ (show_field_shutdown_lt _) (Or.inr (Or.inr rfl))⟩
  · exact ⟨key _ _ (show_field_startup_lt _) (Or.inr (Or.inl rfl)),
      key _ _ (show_field_shutdown_lt _) (Or.inr (Or.inr rfl))⟩

/-- Witness for C7: with the register at 0xff both reads of the axp20x profile
succeed and print a table duration. -/
theorem show_attr_shipped_renders_duration_witness :
    (axp20x_show_attr startup_time AXP20X_PEK_STARTUP_MASK
      { pek_key := 0xff, read_ret := 0, update_ret := 0, updates := [] }).2 =
      some "2000\n" ∧
    ∃ i, show_field axp20x_info.shutdown_mask 0xff = (axp20x_info.shutdown_time i).idx ∧
      axp20x_show_attr axp20x_info.shutdown_time axp20x_info.shutdown_mask
          { pek_key := 0xff, read_ret := 0, update_ret := 0, updates := [] } =
        (((toString (axp20x_info.shutdown_time i).time ++ "\n").length : Int),
          some (toString (axp20x_info.shutdown_time i).time ++ "\n")) ∧
      0 < (axp20x_show_attr axp20x_info.shutdown_time axp20x_info.shutdown_mask
          { pek_key := 0xff, read_ret := 0, update_ret := 0, updates := [] }).1 :=
  ⟨by decide,
   (show_attr_shipped_renders_duration axp20x_info (Or.inl rfl)
      { pek_key := 0xff, read_ret := 0, update_ret := 0, updates := [] } rfl).2⟩

/-- The only error `kstrtouint` reports is `-EINVAL`. -/
theorem kstrtouint_error (buf : List Char) (e : Int)
    (h : kstrtouint buf = Except.error e) : e = -EINVAL := by
  unfold kstrtouint at h
  simp only at h
  split_ifs at h <;> exact (Except.error.inj h).symm

/-- A length below `2 ^ 63` is returned as it is. -/
theorem to_ssize_t_of_lt (count : Nat) (h : count < 2 ^ 63) :
    to_ssize_t count = (count : Int) := by
  unfold to_ssize_t
  have hmod : count % 2 ^ 64 = count := Nat.mod_eq_of_lt (by omega)
  rw [hmod, if_pos h]

/-- C8: for every input text, every transport outcome and every input length
`count` below `2 ^ 63`, `axp20x_store_attr` either succeeds and returns `count`
(the text parsed and the update succeeded) or returns `-EINVAL` (the parse
failed, or the text parsed and the update failed); nothing else is returned.
The error of a failed parse is the value `kstrtouint` returned, passed on
unchanged, and that value is `-EINVAL`. -/
theorem store_attr_outcome (time : Fin 4 → axp20x_time) (mask : Nat) (buf : List Char)
    (count : Nat) (m : regmap) (hcount : count < 2 ^ 63) :
    (((axp20x_store_attr time mask buf count m).1 = (count : Int) ∧
        (∃ v, kstrtouint buf = Except.ok v) ∧ m.update_ret = 0) ∨
      ((axp20x_store_attr time mask buf count m).1 = -EINVAL ∧
        (kstrtouint buf = Except.error (-EINVAL) ∨
          ((∃ v, kstrtouint buf = Except.ok v) ∧ m.update_ret ≠ 0)))) ∧
    (∀ e, kstrtouint buf = Except.error e →
      (axp20x_store_attr time mask buf count m).1 = e ∧ e = -EINVAL) := by
  unfold axp20x_store_attr
  cases hk : kstrtouint buf with
  | error e =>
    have he := kstrtouint_error buf e hk
    subst he
    refine ⟨Or.inr ⟨rfl, Or.inl rfl⟩, fun e1 h1 => ?_⟩
    cases h1
    exact ⟨rfl, rfl⟩
  | ok v =>
    refine ⟨?_, fun e1 h1 => by cases h1⟩
    by_cases hu : m.update_ret = 0
    · exact Or.inl ⟨by simp [regmap_update_bits, hu, to_ssize_t_of_lt count hcount],
        ⟨v, rfl⟩, hu⟩
    · exact Or.inr ⟨by simp [regmap_update_bits, hu], Or.inr ⟨⟨v, rfl⟩, hu⟩⟩

/-- Witness for C8: on the shutdown setting the text abc and the text 4294967296,
a decimal number too large for 32 bits, both fail with `-EINVAL`; the text 1500
of length 4 returns 4 when the update succeeds and `-EINVAL` when it fails. -/
theorem store_attr_outcome_witness :
    (axp20x_store_attr shutdown_time AXP20X_PEK_SHUTDOWN_MASK "abc".toList 3
      { pek_key := 0xff, read_ret := 0, update_ret := 0, updates := [] }).1 = -EINVAL ∧
    (axp20x_store_attr shutdown_time AXP20X_PEK_SHUTDOWN_MASK "4294967296".toList 10
      { pek_key := 0xff, read_ret := 0, update_ret := 0, updates := [] }).1 = -EINVAL ∧
    (axp20x_store_attr shutdown_time AXP20X_PEK_SHUTDOWN_MASK "1500".toList 4
      { pek_key := 0xff, read_ret := 0, update_ret := 0, updates := [] }).1 = 4 ∧
    (axp20x_store_attr shutdown_time AXP20X_PEK_SHUTDOWN_MASK "1500".toList 4
      { pek_key := 0xff, read_ret := 0, update_ret := -5, updates := [] }).1 = -EINVAL ∧
    (∀ e, kstrtouint "4294967296".toList = Except.error e →
      (axp20x_store_attr shutdown_time AXP20X_PEK_SHUTDOWN_MASK "4294967296".toList 10
        { pek_key := 0xff, read_ret := 0, update_ret := 0, updates := [] }).1 = e ∧
      e = -EINVAL) :=
  ⟨by decide, by decide, by decide, by decide,
   (store_attr_outcome shutdown_time AXP20X_PEK_SHUTDOWN_MASK "4294967296".toList 10
      { pek_key := 0xff, read_ret := 0, update_ret := 0, updates := [] } (by decide)).2⟩

/-! ## Claims on the interrupt handler -/

/-- C9: for every controller, an interrupt with the press id `irq_dbf` makes the
handler call `report_key(KEY_POWER, true)` and then `sync`, and nothing else;
an interrupt with the release id `irq_dbr`, the two ids being distinct, makes
it call `report_key(KEY_POWER, false)` and then `sync`, and nothing else.  The
controller is returned as it was. -/
theorem pek_irq_press_release (pek : axp20x_pek) (irq : Int) :
    (irq = pek.irq_dbf →
      axp20x_pek_irq irq pek =
        ([input_call.report_key KEY_POWER true, input_call.sync], pek, IRQ_HANDLED) ∧
      input_call.report_key KEY_POWER false ∉ (axp20x_pek_irq irq pek).1) ∧
    (irq = pek.irq_dbr → pek.irq_dbr ≠ pek.irq_dbf →
      axp20x_pek_irq irq pek =
        ([input_call.report_key KEY_POWER false, input_call.sync], pek, IRQ_HANDLED) ∧
      input_call.report_key KEY_POWER true ∉ (axp20x_pek_irq irq pek).1) := by
  refine ⟨fun h => ?_, fun h hne => ?_⟩
  · subst h
    simp [axp20x_pek_irq]
  · subst h
    simp [axp20x_pek_irq, hne]

/-- Witness for C9: a controller with release id 41 and press id 42. -/
theorem pek_irq_press_release_witness :
    (axp20x_pek_irq 42
        { variant := 0, input := true, info := none, irq_dbr := 41, irq_dbf := 42 }).1 =
      [input_call.report_key KEY_POWER true, input_call.sync] ∧
    (axp20x_pek_irq 41
        { variant := 0, input := true, info := none, irq_dbr := 41, irq_dbf := 42 }).1 =
      [input_call.report_key KEY_POWER false, input_call.sync] :=
  ⟨congrArg Prod.fst ((pek_irq_press_release
      { variant := 0, input := true, info := none, irq_dbr := 41, irq_dbf := 42 } 42).1
      rfl).1,
   congrArg Prod.fst ((pek_irq_press_release
      { variant := 0, input := true, info := none, irq_dbr := 41, irq_dbf := 42 } 41).2
      rfl (by decide)).1⟩

/-- C10 (as stated, refuted): an interrupt whose id is neither the press id nor
the release id still makes the handler call `sync`, so the calls on the input
device are not empty. -/
theorem pek_irq_unmatched_counterexample :
    (axp20x_pek_irq 7
        { variant := 0, input := true, info := none, irq_dbr := 41, irq_dbf := 42 }).1 =
      [input_call.sync] ∧
    ¬ ∀ (pek : axp20x_pek) (irq : Int), irq ≠ pek.irq_dbf → irq ≠ pek.irq_dbr →
        (axp20x_pek_irq irq pek).1 = [] := by
  refine ⟨by decide, fun h => ?_⟩
  have h1 := h { variant := 0, input := true, info := none, irq_dbr := 41, irq_dbf := 42 } 7
    (by decide) (by decide)
  revert h1
  decide

/-- C10 (amended): for every controller and every interrupt id that is neither
`irq_dbf` nor `irq_dbr`, the handler makes no `report_key` call; the only call
it makes on the input device is one `sync`. -/
theorem pek_irq_unmatched (pek : axp20x_pek) (irq : Int) (hf : irq ≠ pek.irq_dbf)
    (hr : irq ≠ pek.irq_dbr) :
    axp20x_pek_irq irq pek = ([input_call.sync], pek, IRQ_HANDLED) ∧
    ∀ code pressed, input_call.report_key code pressed ∉ (axp20x_pek_irq irq pek).1 := by
  simp [axp20x_pek_irq, hf, hr]

/-- Witness for C10: interrupt 7 on a controller with ids 41 and 42. -/
theorem pek_irq_unmatched_witness :
    (axp20x_pek_irq 7
        { variant := 0, input := true, info := none, irq_dbr := 41, irq_dbf := 42 }).1 =
      [input_call.sync] :=
  congrArg Prod.fst (pek_irq_unmatched
    { variant := 0, input := true, info := none, irq_dbr := 41, irq_dbf := 42 } 7
    (by decide) (by decide)).1

/-! ## Claims on the registration gate and the power-state operations -/

/-- C11 (as stated, refuted): an AXP288 whose firmware table declares INTCFD9,
on a SoC that is not Cherry Trail, is still told to register its input device,
so on AXP288 the gate does not decline exactly when one of the two devices is
declared. -/
theorem should_register_input_counterexample :
    axp20x_pek_should_register_input
      { config_input_soc_button_array := true, soc_intel_is_cht := false,
        acpi_dev_present := fun name => name == "INTCFD9" }
      { variant := AXP288_ID, input := false, info := none, irq_dbr := 0, irq_dbf := 0 } =
      true ∧
    ¬ ∀ (env : gate_env) (pek : axp20x_pek), pek.variant = AXP288_ID →
        (axp20x_pek_should_register_input env pek = false ↔
          (env.acpi_dev_present "INTCFD9" = true ∨
            env.acpi_dev_present "ACPI0011" = true)) := by
  refine ⟨by decide, fun h => ?_⟩
  have h1 := (h
    { config_input_soc_button_array := true, soc_intel_is_cht := false,
      acpi_dev_present := fun name => name == "INTCFD9" }
    { variant := AXP288_ID, input := false, info := none, irq_dbr := 0, irq_dbf := 0 }
    rfl).mpr (Or.inl (by decide))
  revert h1
  decide

/-- C11 (amended): the gate returns true for every variant other than AXP288,
whatever the firmware table declares; for AXP288 it returns false if and only
if the kernel is built with `CONFIG_INPUT_SOC_BUTTON_ARRAY`, the SoC is Cherry
Trail, and the firmware table declares INTCFD9 or ACPI0011. -/
theorem should_register_input_decision (env : gate_env) (pek : axp20x_pek) :
    (pek.variant ≠ AXP288_ID → axp20x_pek_should_register_input env pek = true) ∧
    (pek.variant = AXP288_ID →
      (axp20x_pek_should_register_input env pek = false ↔
        (env.config_input_soc_button_array = true ∧ env.soc_intel_is_cht = true ∧
          (env.acpi_dev_present "INTCFD9" = true ∨
            env.acpi_dev_present "ACPI0011" = true)))) := by
  refine ⟨fun h => ?_, fun h => ?_⟩
  · simp [axp20x_pek_should_register_input, h]
  · unfold axp20x_pek_should_register_input
    rw [h]
    cases env.config_input_soc_button_array <;> cases env.soc_intel_is_cht <;>
      cases env.acpi_dev_present "INTCFD9" <;>
      cases env.acpi_dev_present "ACPI0011" <;> simp

/-- Witness for C11: a chip that is not an AXP288 is registered although both
devices are declared; an AXP288 on Cherry Trail with ACPI0011 declared is
not. -/
theorem should_register_input_decision_witness :
    axp20x_pek_should_register_input
      { config_input_soc_button_array := true, soc_intel_is_cht := true,
        acpi_dev_present := fun _ => true }
      { variant := 3, input := false, info := none, irq_dbr := 0, irq_dbf := 0 } = true ∧
    axp20x_pek_should_register_input
      { config_input_soc_button_array := true, soc_intel_is_cht := true,
        acpi_dev_present := fun name => name == "ACPI0011" }
      { variant := AXP288_ID, input := false, info := none, irq_dbr := 0, irq_dbf := 0 } =
      false :=
  ⟨(should_register_input_decision
      { config_input_soc_button_array := true, soc_intel_is_cht := true,
        acpi_dev_present := fun _ => true }
      { variant := 3, input := false, info := none, irq_dbr := 0, irq_dbf := 0 }).1
      (by decide),
   ((should_register_input_decision
      { config_input_soc_button_array := true, soc_intel_is_cht := true,
        acpi_dev_present := fun name => name == "ACPI0011" }
      { variant := AXP288_ID, input := false, info := none, irq_dbr := 0, irq_dbf := 0 }).2
      rfl).mpr ⟨rfl, rfl, Or.inr (by decide)⟩⟩

/-- C12 (as stated, refuted): with wake armed, a subscription that was disabled
before suspend is still disabled between suspend and resume. -/
theorem suspend_wake_armed_counterexample :
    (((axp20x_pek_suspend true
        { variant := 0, input := true, info := none, irq_dbr := 41, irq_dbf := 42 }
        { desc := fun _ => { depth := 1, wake_depth := 0 }, calls := [] }).2).desc 42).depth
      = 1 ∧
    ¬ ∀ (pek : axp20x_pek) (s : irq_state),
        (((axp20x_pek_suspend true pek s).2).desc pek.irq_dbf).depth = 0 ∧
        (((axp20x_pek_suspend true pek s).2).desc pek.irq_dbr).depth = 0 := by
  refine ⟨by decide, fun h => ?_⟩
  have h1 := (h
    { variant := 0, input := true, info := none, irq_dbr := 41, irq_dbf := 42 }
    { desc := fun _ => { depth := 1, wake_depth := 0 }, calls := [] }).1
  revert h1
  decide

/-- C12 (amended): for either value of `device_may_wakeup`, held fixed across the
pair, and for every state of the interrupt subsystem before suspend, resume
after suspend returns every interrupt, the two subscriptions included, to
exactly its state before suspend.  In between, with wake armed both
subscriptions are wake-marked and each is disabled exactly as deep as it was
before suspend (suspend disables neither); with wake not armed both are
disabled. -/
theorem suspend_resume_round_trip (may_wakeup : Bool) (pek : axp20x_pek) (s : irq_state) :
    ((axp20x_pek_resume may_wakeup pek (axp20x_pek_suspend may_wakeup pek s).2).2).desc =
      s.desc ∧
    (may_wakeup = true →
      0 < (((axp20x_pek_suspend may_wakeup pek s).2).desc pek.irq_dbf).wake_depth ∧
      0 < (((axp20x_pek_suspend may_wakeup pek s).2).desc pek.irq_dbr).wake_depth ∧
      (((axp20x_pek_suspend may_wakeup pek s).2).desc pek.irq_dbf).depth =
        (s.desc pek.irq_dbf).depth ∧
      (((axp20x_pek_suspend may_wakeup pek s).2).desc pek.irq_dbr).depth =
        (s.desc pek.irq_dbr).depth) ∧
    (may_wakeup = false →
      0 < (((axp20x_pek_suspend may_wakeup pek s).2).desc pek.irq_dbf).depth ∧
      0 < (((axp20x_pek_suspend may_wakeup pek s).2).desc pek.irq_dbr).depth) := by
  cases may_wakeup
  · refine ⟨?_, fun h => absurd h (by decide), fun _ => ?_⟩
    · funext irq
      by_cases h1 : irq = pek.irq_dbr <;> by_cases h2 : irq = pek.irq_dbf <;>
        by_cases h3 : pek.irq_dbr = pek.irq_dbf <;>
        simp_all [axp20x_pek_suspend, axp20x_pek_resume, disable_irq, enable_irq,
          Function.update]
    · by_cases h3 : pek.irq_dbf = pek.irq_dbr
      · simp [axp20x_pek_suspend, disable_irq, Function.update, h3]
      · simp [axp20x_pek_suspend, disable_irq, Function.update, h3, Ne.symm h3]
  · refine ⟨?_, fun _ => ?_, fun h => absurd h (by decide)⟩
    · funext irq
      by_cases h1 : irq = pek.irq_dbr <;> by_cases h2 : irq = pek.irq_dbf <;>
        by_cases h3 : pek.irq_dbr = pek.irq_dbf <;>
        simp_all [axp20x_pek_suspend, axp20x_pek_resume, disable_irq_wake, enable_irq_wake,
          Function.update]
    · by_cases h3 : pek.irq_dbf = pek.irq_dbr
      · simp [axp20x_pek_suspend, enable_irq_wake, Function.update, h3]
      · simp [axp20x_pek_suspend, enable_irq_wake, Function.update, h3, Ne.symm h3]

/-- Witness for C12: with wake not armed, on a controller with ids 41 and 42 whose
press subscription was disabled once before suspend, both subscriptions are
disabled after suspend, and after resume the press subscription is again
disabled once and the release subscription enabled. -/
theorem suspend_resume_round_trip_witness :
    (0 < (((axp20x_pek_suspend false
        { variant := 0, input := true, info := none, irq_dbr := 41, irq_dbf := 42 }
        { desc := fun irq => { depth := if irq = 42 then 1 else 0, wake_depth := 0 },
          calls := [] }).2).desc 42).depth ∧
      0 < (((axp20x_pek_suspend false
        { variant := 0, input := true, info := none, irq_dbr := 41, irq_dbf := 42 }
        { desc := fun irq => { depth := if irq = 42 then 1 else 0, wake_depth := 0 },
          calls := [] }).2).desc 41).depth) ∧
    ((axp20x_pek_resume false
        { variant := 0, input := true, info := none, irq_dbr := 41, irq_dbf := 42 }
        (axp20x_pek_suspend false
          { variant := 0, input := true, info := none, irq_dbr := 41, irq_dbf := 42 }
          { desc := fun irq => { depth := if irq = 42 then 1 else 0, wake_depth := 0 },
            calls := [] }).2).2).desc =
      fun irq => { depth := if irq = 42 then 1 else 0, wake_depth := 0 } :=
  ⟨(suspend_resume_round_trip false
      { variant := 0, input := true, info := none, irq_dbr := 41, irq_dbf := 42 }
      { desc := fun irq => { depth := if irq = 42 then 1 else 0, wake_depth := 0 },
        calls := [] }).2.2 rfl,
   (suspend_resume_round_trip false
      { variant := 0, input := true, info := none, irq_dbr := 41, irq_dbf := 42 }
      { desc := fun irq => { depth := if irq = 42 then 1 else 0, wake_depth := 0 },
        calls := [] }).1⟩

/-! ## Further claims on the write and read paths -/

/-- An update under the mask `m` leaves alone every bit of a field `k` that is
disjoint from `m` and lies inside the complement `n`. -/
theorem and_or_and_other (r x n m k : Nat) (hkm : k &&& m = 0) (hkn : k &&& n = k) :
    ((r &&& n) ||| (x &&& m)) &&& k = r &&& k := by
  apply Nat.eq_of_testBit_eq
  intro i
  have h1 : (k &&& m).testBit i = false := by rw [hkm]; simp
  have h2 : (k &&& n).testBit i = k.testBit i := by rw [hkn]
  simp only [Nat.testBit_and, Nat.testBit_or] at h1 h2 ⊢
  cases hr : r.testBit i <;> cases hx : x.testBit i <;> cases hn : n.testBit i <;>
    cases hm : m.testBit i <;> cases hk : k.testBit i <;> simp_all

/-- The register after `axp20x_store_attr`: what it was, or the result of the
one update of the field; the outcome of reads is not affected. -/
theorem store_attr_regmap (time : Fin 4 → axp20x_time) (mask : Nat) (buf : List Char)
    (count : Nat) (m : regmap) :
    ((axp20x_store_attr time mask buf count m).2.pek_key = m.pek_key ∨
      ∃ v, (axp20x_store_attr time mask buf count m).2.pek_key =
        update_bits_value m.pek_key mask (store_update_val time mask v)) ∧
    (axp20x_store_attr time mask buf count m).2.read_ret = m.read_ret := by
  unfold axp20x_store_attr
  cases hk : kstrtouint buf with
  | error e => exact ⟨Or.inl rfl, rfl⟩
  | ok v =>
    by_cases hu : m.update_ret = 0
    · exact ⟨Or.inr ⟨v, by simp [regmap_update_bits, hu]⟩, by simp [regmap_update_bits, hu]⟩
    · exact ⟨Or.inl (by simp [regmap_update_bits, hu]), by simp [regmap_update_bits, hu]⟩

/-- The read path of a setting depends only on the bits of its mask. -/
theorem show_attr_congr (time : Fin 4 → axp20x_time) (mask : Nat) (m1 m : regmap)
    (hret : m1.read_ret = m.read_ret) (hkey : m1.pek_key &&& mask = m.pek_key &&& mask) :
    axp20x_show_attr time mask m1 = axp20x_show_attr time mask m := by
  unfold axp20x_show_attr regmap_read show_value show_field
  simp only [hret, hkey]

/-- C13: on both shipped profiles the two masks are disjoint; for every register
value `r` and requested duration `v` the update a startup write issues leaves
every bit outside 0xc0 as it was, and the one a shutdown write issues every bit
outside 0x03; so what `axp20x_show_attr` returns for the other setting is the
same before and after any call of `axp20x_store_attr`. -/
theorem store_leaves_other_setting (info : struct_axp20x_info)
    (hinfo : info = axp20x_info ∨ info = axp221_info) (r v : Nat) (buf : List Char)
    (count : Nat) (m : regmap) :
    (info.startup_mask = 0xc0 ∧ info.shutdown_mask = 0x03 ∧
      info.startup_mask &&& info.shutdown_mask = 0) ∧
    (update_bits_value r info.startup_mask
        (store_update_val info.startup_time info.startup_mask v) &&&
          u32_not info.startup_mask = r &&& u32_not info.startup_mask ∧
      show_value info.shutdown_time info.shutdown_mask
        (update_bits_value r info.startup_mask
          (store_update_val info.startup_time info.startup_mask v)) =
        show_value info.shutdown_time info.shutdown_mask r ∧
      axp20x_show_attr info.shutdown_time info.shutdown_mask
        (axp20x_store_attr info.startup_time info.startup_mask buf count m).2 =
        axp20x_show_attr info.shutdown_time info.shutdown_mask m) ∧
    (update_bits_value r info.shutdown_mask
        (store_update_val info.shutdown_time info.shutdown_mask v) &&&
          u32_not info.shutdown_mask = r &&& u32_not info.shutdown_mask ∧
      show_value info.startup_time info.startup_mask
        (update_bits_value r info.shutdown_mask
          (store_update_val info.shutdown_time info.shutdown_mask v)) =
        show_value info.startup_time info.startup_mask r ∧
      axp20x_show_attr info.startup_time info.startup_mask
        (axp20x_store_attr info.shutdown_time info.shutdown_mask buf count m).2 =
        axp20x_show_attr info.startup_time info.startup_mask m) := by
  have key : ∀ (time other : Fin 4 → axp20x_time) (mask omask : Nat),
      omask &&& mask = 0 → omask &&& u32_not mask = omask →
      u32_not mask &&& mask = 0 →
      update_bits_value r mask (store_update_val time mask v) &&& u32_not mask =
          r &&& u32_not mask ∧
        show_value other omask (update_bits_value r mask (store_update_val time mask v)) =
          show_value other omask r ∧
        axp20x_show_attr other omask (axp20x_store_attr time mask buf count m).2 =
          axp20x_show_attr other omask m := by
    intro time other mask omask h1 h2 h3
    refine ⟨?_, ?_, ?_⟩
    · exact and_or_and_other r _ (u32_not mask) mask (u32_not mask) h3 (Nat.and_self _)
    · unfold show_value show_field update_bits_value
      rw [and_or_and_other r _ (u32_not mask) mask omask h1 h2]
    · obtain ⟨hkey, hret⟩ := store_attr_regmap time mask buf count m
      apply show_attr_congr _ _ _ _ hret
      rcases hkey with h | ⟨w, h⟩
      · rw [h]
      · rw [h]
        exact and_or_and_other _ _ (u32_not mask) mask omask h1 h2
  rcases hinfo with rfl | rfl
  · exact ⟨by decide, key _ _ _ _ (by decide) (by decide) (by decide),
      key _ _ _ _ (by decide) (by decide) (by decide)⟩
  · exact ⟨by decide, key _ _ _ _ (by decide) (by decide) (by decide),
      key _ _ _ _ (by decide) (by decide) (by decide)⟩

/-- Witness for C13: on the axp20x profile, with the register at 0xff, writing
128 to startup changes the register to 0x3f and the shutdown read still
renders 10000. -/
theorem store_leaves_other_setting_witness :
    (axp20x_store_attr axp20x_info.startup_time axp20x_info.startup_mask "128".toList 3
      { pek_key := 0xff, read_ret := 0, update_ret := 0, updates := [] }).2.pek_key = 0x3f ∧
    (axp20x_show_attr axp20x_info.shutdown_time axp20x_info.shutdown_mask
      { pek_key := 0xff, read_ret := 0, update_ret := 0, updates := [] }).2 =
      some "10000\n" ∧
    axp20x_show_attr axp20x_info.shutdown_time axp20x_info.shutdown_mask
      (axp20x_store_attr axp20x_info.startup_time axp20x_info.startup_mask "128".toList 3
        { pek_key := 0xff, read_ret := 0, update_ret := 0, updates := [] }).2 =
      axp20x_show_attr axp20x_info.shutdown_time axp20x_info.shutdown_mask
        { pek_key := 0xff, read_ret := 0, update_ret := 0, updates := [] } :=
  ⟨by decide, by decide,
   (store_leaves_other_setting axp20x_info (Or.inl rfl) 0xff 128 "128".toList 3
      { pek_key := 0xff, read_ret := 0, update_ret := 0, updates := [] }).2.1.2.2⟩

/-- C14: for an input length `count` below `2 ^ 63`, whenever
`axp20x_store_attr` returns an error (a negative value) the register holds the
value it held before the call.  When the text does not parse the transport is
left exactly as it was, no update being issued; when the text parses and the
update fails, the call returns `-EINVAL`, the register is as before and that
one update is all that was issued. -/
theorem store_attr_failure_atomic (time : Fin 4 → axp20x_time) (mask : Nat)
    (buf : List Char) (count : Nat) (m : regmap) :
    (count < 2 ^ 63 → (axp20x_store_attr time mask buf count m).1 < 0 →
      (axp20x_store_attr time mask buf count m).2.pek_key = m.pek_key) ∧
    (∀ e, kstrtouint buf = Except.error e →
      (axp20x_store_attr time mask buf count m).1 = e ∧
      (axp20x_store_attr time mask buf count m).2 = m) ∧
    (∀ v, kstrtouint buf = Except.ok v → m.update_ret ≠ 0 →
      (axp20x_store_attr time mask buf count m).1 = -EINVAL ∧
      (axp20x_store_attr time mask buf count m).2.pek_key = m.pek_key ∧
      (axp20x_store_attr time mask buf count m).2.updates =
        m.updates ++ [(mask, store_update_val time mask v)]) := by
  unfold axp20x_store_attr
  cases hk : kstrtouint buf with
  | error e =>
    refine ⟨fun _ _ => rfl, fun e1 he => ?_, fun v hv => ?_⟩
    · cases he
      exact ⟨rfl, rfl⟩
    · cases hv
  | ok v =>
    refine ⟨fun hcount hneg => ?_, fun e he => ?_, fun w hw hu => ?_⟩
    · by_cases hu : m.update_ret = 0
      · simp [regmap_update_bits, hu, to_ssize_t_of_lt count hcount] at hneg
        omega
      · simp [regmap_update_bits, hu]
    · cases he
    · cases hw
      simp [regmap_update_bits, hu]

/-- Witness for C14: the text abc written to shutdown fails with `-EINVAL` and
leaves the transport as it was; the text 6000, with a failing transport, fails
with `-EINVAL`, a negative value, and leaves the register at 0xff. -/
theorem store_attr_failure_atomic_witness :
    ((axp20x_store_attr shutdown_time AXP20X_PEK_SHUTDOWN_MASK "6000".toList 4
        { pek_key := 0xff, read_ret := 0, update_ret := -5, updates := [] }).1 < 0 ∧
      (axp20x_store_attr shutdown_time AXP20X_PEK_SHUTDOWN_MASK "6000".toList 4
        { pek_key := 0xff, read_ret := 0, update_ret := -5, updates := [] }).2.pek_key =
        0xff) ∧
    ((axp20x_store_attr shutdown_time AXP20X_PEK_SHUTDOWN_MASK "abc".toList 3
        { pek_key := 0xff, read_ret := 0, update_ret := 0, updates := [] }).1 = -EINVAL ∧
      (axp20x_store_attr shutdown_time AXP20X_PEK_SHUTDOWN_MASK "abc".toList 3
        { pek_key := 0xff, read_ret := 0, update_ret := 0, updates := [] }).2 =
        { pek_key := 0xff, read_ret := 0, update_ret := 0, updates := [] }) ∧
    ((axp20x_store_attr shutdown_time AXP20X_PEK_SHUTDOWN_MASK "6000".toList 4
        { pek_key := 0xff, read_ret := 0, update_ret := -5, updates := [] }).1 = -EINVAL ∧
      (axp20x_store_attr shutdown_time AXP20X_PEK_SHUTDOWN_MASK "6000".toList 4
        { pek_key := 0xff, read_ret := 0, update_ret := -5, updates := [] }).2.pek_key =
        0xff ∧
      (axp20x_store_attr shutdown_time AXP20X_PEK_SHUTDOWN_MASK "6000".toList 4
        { pek_key := 0xff, read_ret := 0, update_ret := -5, updates := [] }).2.updates =
        [] ++ [(AXP20X_PEK_SHUTDOWN_MASK,
          store_update_val shutdown_time AXP20X_PEK_SHUTDOWN_MASK 6000)]) :=
  ⟨⟨by decide,
    (store_attr_failure_atomic shutdown_time AXP20X_PEK_SHUTDOWN_MASK "6000".toList 4
      { pek_key := 0xff, read_ret := 0, update_ret := -5, updates := [] }).1
      (by decide) (by decide)⟩,
   (store_attr_failure_atomic shutdown_time AXP20X_PEK_SHUTDOWN_MASK "abc".toList 3
      { pek_key := 0xff, read_ret := 0, update_ret := 0, updates := [] }).2.1 (-EINVAL)
      (by decide),
   (store_attr_failure_atomic shutdown_time AXP20X_PEK_SHUTDOWN_MASK "6000".toList 4
      { pek_key := 0xff, read_ret := 0, update_ret := -5, updates := [] }).2.2 6000
      (by decide) (by decide)⟩

/-- The lookup loop leaves a value alone that is the idx of none of the
entries it visits. -/
theorem show_scan_no_match (time : Fin 4 → axp20x_time) (l : List (Fin 4)) (val : Nat)
    (h : ∀ i ∈ l, (time i).idx ≠ val) : show_scan time l val = val := by
  induction l with
  | nil => rfl
  | cons j rest ih =>
    have hj : ¬ val = (time j).idx := fun e => h j (List.mem_cons_self _ _) e.symm
    simp only [show_scan, hj, if_false]
    exact ih (fun i hi => h i (List.mem_cons_of_mem _ hi))

/-- C15: for every register value, every non-zero mask and every table of four
entries none of which has the extracted field as its idx, the read path
computes the extracted field itself, and a successful `axp20x_show_attr`
prints it. -/
theorem show_fallback_raw (time : Fin 4 → axp20x_time) (mask : Nat) (m : regmap)
    (_hmask : mask ≠ 0) (hread : m.read_ret = 0)
    (hno : ∀ i, (time i).idx ≠ show_field mask m.pek_key) :
    show_value time mask m.pek_key = show_field mask m.pek_key ∧
    axp20x_show_attr time mask m =
      (((render (show_field mask m.pek_key)).length : Int),
        some (render (show_field mask m.pek_key))) := by
  have hv : show_value time mask m.pek_key = show_field mask m.pek_key :=
    show_scan_no_match time [0, 1, 2, 3] _ (fun i _ => hno i)
  exact ⟨hv, by rw [show_attr_of_read_ok _ _ _ hread, hv]⟩

/-- Witness for C15: under the mask 0x0f the register value 0x0c has the field 12,
the idx of no entry of the shutdown table, and the read prints 12. -/
theorem show_fallback_raw_witness :
    show_field 0x0f 0x0c = 12 ∧
    (axp20x_show_attr shutdown_time 0x0f
      { pek_key := 0x0c, read_ret := 0, update_ret := 0, updates := [] }).2 =
      some "12\n" ∧
    show_value shutdown_time 0x0f 0x0c = show_field 0x0f 0x0c :=
  ⟨by decide, by decide,
   (show_fallback_raw shutdown_time 0x0f
      { pek_key := 0x0c, read_ret := 0, update_ret := 0, updates := [] }
      (by decide) rfl (by decide)).1⟩

/-- C17 (as stated, refuted): in a table with pairwise distinct idx values whose
first entry has duration 1 and whose second entry has idx 1, the field 0 is
looked up as the first entry and then, the loop going on, as the second: the
read path computes 5, not the duration 1 of the entry whose idx is 0. -/
theorem show_lookup_chain_counterexample :
    (∀ a b, (chain_example_time a).idx = (chain_example_time b).idx → a = b) ∧
    (chain_example_time 0).idx = show_field 0x03 0 ∧
    (chain_example_time 0).time = 1 ∧
    show_value chain_example_time 0x03 0 = 5 ∧
    ¬ ∀ (time : Fin 4 → axp20x_time) (mask r : Nat) (i : Fin 4), mask ≠ 0 →
        (∀ a b, (time a).idx = (time b).idx → a = b) →
        (time i).idx = show_field mask r →
        show_value time mask r = (time i).time := by
  refine ⟨by decide, by decide, by decide, by decide, fun h => ?_⟩
  have h1 := h chain_example_time 0x03 0 0 (by decide) (by decide) (by decide)
  revert h1
  decide

/-- C17 (amended): for every register value, every non-zero mask and every table
of four entries whose idx values are pairwise distinct, if entry `i` has idx
equal to the extracted field and its duration is not the idx of an entry at a
later position, the lookup loop computes the duration of entry `i`. -/
theorem show_lookup_entry (time : Fin 4 → axp20x_time) (mask r : Nat) (i : Fin 4)
    (_hmask : mask ≠ 0)
    (hdistinct : ∀ a b, (time a).idx = (time b).idx → a = b)
    (hidx : (time i).idx = show_field mask r)
    (hlater : ∀ j, i < j → (time j).idx ≠ (time i).time) :
    show_value time mask r = (time i).time := by
  have hne : ∀ j, j ≠ i → ¬ show_field mask r = (time j).idx := by
    intro j hj e
    exact hj (hdistinct j i (by rw [← e, hidx]))
  have hl : ∀ j, i < j → ¬ (time i).time = (time j).idx :=
    fun j hj e => hlater j hj e.symm
  unfold show_value
  rw [← hidx] at hne ⊢
  fin_cases i
  · have a1 := hl 1 (by decide)
    have a2 := hl 2 (by decide)
    have a3 := hl 3 (by decide)
    simp only [show_scan, Fin.zero_eta, if_true] at *
    simp only [a1, a2, a3, if_false]
  · have b0 := hne 0 (by decide)
    have a2 := hl 2 (by decide)
    have a3 := hl 3 (by decide)
    simp only [show_scan, Fin.mk_one, if_true] at *
    simp only [b0, a2, a3, if_false, if_true]
  · have b0 := hne 0 (by decide)
    have b1 := hne 1 (by decide)
    have a3 := hl 3 (by decide)
    simp only [show_scan, Fin.reduceFinMk, if_true] at *
    simp only [b0, b1, a3, if_false, if_true]
  · have b0 := hne 0 (by decide)
    have b1 := hne 1 (by decide)
    have b2 := hne 2 (by decide)
    simp only [show_scan, Fin.reduceFinMk, if_true] at *
    simp only [b0, b1, b2, if_false, if_true]

/-- Witness for C17: in the table `startup_time` the register value 0x40 has the
startup field 1, the idx of the entry at position 2, and the loop computes its
duration 3000. -/
theorem show_lookup_entry_witness :
    show_field 0xc0 0x40 = (startup_time 2).idx ∧
    show_value startup_time 0xc0 0x40 = 3000 :=
  ⟨by decide,
   show_lookup_entry startup_time 0xc0 0x40 2 (by decide) (by decide) (by decide)
     (by decide)⟩

/-- C18 (as stated, refuted): in `startup_time` the entry with idx 1 lasts 3000 ms
and the entry with idx 2 lasts 1000 ms, so the durations do not increase with
the idx. -/
theorem startup_time_not_monotone :
    ((startup_time 2).idx < (startup_time 1).idx ∧
      ¬ (startup_time 2).time < (startup_time 1).time) ∧
    ¬ ∀ a b : Fin 4, (startup_time a).idx < (startup_time b).idx →
        (startup_time a).time < (startup_time b).time := by
  decide

/-- C18 (amended): in each of the three shipped tables the idx values are a
permutation of 0, 1, 2, 3.  In `axp221_startup_time` and `shutdown_time` the
durations increase strictly with the idx; in `startup_time` the durations are
pairwise distinct, and increase strictly along idx 0, 2, 3, 1. -/
theorem shipped_tables_invariant :
    ((∀ k : Fin 4, ∃ i, (startup_time i).idx = k.val) ∧
      (∀ a b, (startup_time a).idx = (startup_time b).idx → a = b)) ∧
    ((∀ k : Fin 4, ∃ i, (axp221_startup_time i).idx = k.val) ∧
      (∀ a b, (axp221_startup_time a).idx = (axp221_startup_time b).idx → a = b)) ∧
    ((∀ k : Fin 4, ∃ i, (shutdown_time i).idx = k.val) ∧
      (∀ a b, (shutdown_time a).idx = (shutdown_time b).idx → a = b)) ∧
    (∀ a b : Fin 4, (axp221_startup_time a).idx < (axp221_startup_time b).idx →
      (axp221_startup_time a).time < (axp221_startup_time b).time) ∧
    (∀ a b : Fin 4, (shutdown_time a).idx < (shutdown_time b).idx →
      (shutdown_time a).time < (shutdown_time b).time) ∧
    (∀ a b, (startup_time a).time = (startup_time b).time → a = b) ∧
    ((startup_time 0).idx = 0 ∧ (startup_time 1).idx = 2 ∧ (startup_time 3).idx = 3 ∧
      (startup_time 2).idx = 1 ∧
      (startup_time 0).time < (startup_time 1).time ∧
      (startup_time 1).time < (startup_time 3).time ∧
      (startup_time 3).time < (startup_time 2).time) := by
  decide

/-! ## Claims on setup -/

/-- C16: `axp20x_pek_probe_input_device` stops at the first failing step.  For
each of the six steps that can fail (resolving PEK_DBR, resolving PEK_DBF,
allocating the input device, requesting the release interrupt, requesting the
press interrupt, registering the input device), when it is the first to fail
the function returns its error (`-ENOMEM` for the allocation) and the calls
made end with that step.  In particular when resolving PEK_DBF fails nothing is
allocated, requested, registered or marked wake-capable.  In every case the
device is marked wake-capable only if the function returns 0. -/
theorem probe_input_device_short_circuit (env : setup_env) (pek : axp20x_pek) :
    (env.get_irq_dbr < 0 →
      (axp20x_pek_probe_input_device env pek).1 = env.get_irq_dbr ∧
      (axp20x_pek_probe_input_device env pek).2.2 =
        [setup_call.get_irq_byname "PEK_DBR"]) ∧
    (0 ≤ env.get_irq_dbr → env.get_irq_dbf < 0 →
      (axp20x_pek_probe_input_device env pek).1 = env.get_irq_dbf ∧
      (axp20x_pek_probe_input_device env pek).1 ≠ 0 ∧
      (axp20x_pek_probe_input_device env pek).2.1.input = pek.input ∧
      (axp20x_pek_probe_input_device env pek).2.2 =
        [setup_call.get_irq_byname "PEK_DBR", setup_call.get_virq env.get_irq_dbr,
         setup_call.get_irq_byname "PEK_DBF"]) ∧
    (0 ≤ env.get_irq_dbr → 0 ≤ env.get_irq_dbf → env.allocate_ok = false →
      (axp20x_pek_probe_input_device env pek).1 = -ENOMEM ∧
      (axp20x_pek_probe_input_device env pek).2.2 =
        [setup_call.get_irq_byname "PEK_DBR", setup_call.get_virq env.get_irq_dbr,
         setup_call.get_irq_byname "PEK_DBF", setup_call.get_virq env.get_irq_dbf,
         setup_call.allocate_device]) ∧
    (0 ≤ env.get_irq_dbr → 0 ≤ env.get_irq_dbf → env.allocate_ok = true →
      env.request_dbr < 0 →
      (axp20x_pek_probe_input_device env pek).1 = env.request_dbr ∧
      (axp20x_pek_probe_input_device env pek).2.2 =
        [setup_call.get_irq_byname "PEK_DBR", setup_call.get_virq env.get_irq_dbr,
         setup_call.get_irq_byname "PEK_DBF", setup_call.get_virq env.get_irq_dbf,
         setup_call.allocate_device, setup_call.set_capability KEY_POWER,
         setup_call.request_irq (env.get_virq env.get_irq_dbr) "axp20x-pek-dbr"]) ∧
    (0 ≤ env.get_irq_dbr → 0 ≤ env.get_irq_dbf → env.allocate_ok = true →
      0 ≤ env.request_dbr → env.request_dbf < 0 →
      (axp20x_pek_probe_input_device env pek).1 = env.request_dbf ∧
      (axp20x_pek_probe_input_device env pek).2.2 =
        [setup_call.get_irq_byname "PEK_DBR", setup_call.get_virq env.get_irq_dbr,
         setup_call.get_irq_byname "PEK_DBF", setup_call.get_virq env.get_irq_dbf,
         setup_call.allocate_device, setup_call.set_capability KEY_POWER,
         setup_call.request_irq (env.get_virq env.get_irq_dbr) "axp20x-pek-dbr",
         setup_call.request_irq (env.get_virq env.get_irq_dbf) "axp20x-pek-dbf"]) ∧
    (0 ≤ env.get_irq_dbr → 0 ≤ env.get_irq_dbf → env.allocate_ok = true →
      0 ≤ env.request_dbr → 0 ≤ env.request_dbf → env.register_ret ≠ 0 →
      (axp20x_pek_probe_input_device env pek).1 = env.register_ret ∧
      (axp20x_pek_probe_input_device env pek).2.2 =
        [setup_call.get_irq_byname "PEK_DBR", setup_call.get_virq env.get_irq_dbr,
         setup_call.get_irq_byname "PEK_DBF", setup_call.get_virq env.get_irq_dbf,
         setup_call.allocate_device, setup_call.set_capability KEY_POWER,
         setup_call.request_irq (env.get_virq env.get_irq_dbr) "axp20x-pek-dbr",
         setup_call.request_irq (env.get_virq env.get_irq_dbf) "axp20x-pek-dbf",
         setup_call.register_device]) ∧
    (∀ flag, setup_call.init_wakeup flag ∈ (axp20x_pek_probe_input_device env pek).2.2 →
      (axp20x_pek_probe_input_device env pek).1 = 0) := by
  refine ⟨fun h1 => ?_, fun h1 h2 => ?_, fun h1 h2 h3 => ?_, fun h1 h2 h3 h4 => ?_,
    fun h1 h2 h3 h4 h5 => ?_, fun h1 h2 h3 h4 h5 h6 => ?_, fun flag hmem => ?_⟩
  · simp [axp20x_pek_probe_input_device, h1]
  · have h1n : ¬ env.get_irq_dbr < 0 := not_lt.mpr h1
    have hne : env.get_irq_dbf ≠ 0 := by omega
    simp [axp20x_pek_probe_input_device, h1n, h2, hne]
  · have h1n : ¬ env.get_irq_dbr < 0 := not_lt.mpr h1
    have h2n : ¬ env.get_irq_dbf < 0 := not_lt.mpr h2
    simp [axp20x_pek_probe_input_device, h1n, h2n, h3]
  · have h1n : ¬ env.get_irq_dbr < 0 := not_lt.mpr h1
    have h2n : ¬ env.get_irq_dbf < 0 := not_lt.mpr h2
    simp [axp20x_pek_probe_input_device, h1n, h2n, h3, h4]
  · have h1n : ¬ env.get_irq_dbr < 0 := not_lt.mpr h1
    have h2n : ¬ env.get_irq_dbf < 0 := not_lt.mpr h2
    have h4n : ¬ env.request_dbr < 0 := not_lt.mpr h4
    simp [axp20x_pek_probe_input_device, h1n, h2n, h3, h4n, h5]
  · have h1n : ¬ env.get_irq_dbr < 0 := not_lt.mpr h1
    have h2n : ¬ env.get_irq_dbf < 0 := not_lt.mpr h2
    have h4n : ¬ env.request_dbr < 0 := not_lt.mpr h4
    have h5n : ¬ env.request_dbf < 0 := not_lt.mpr h5
    simp [axp20x_pek_probe_input_device, h1n, h2n, h3, h4n, h5n, h6]
  · revert hmem
    unfold axp20x_pek_probe_input_device
    simp only
    split_ifs <;> simp

/-- Witness for C16: the release line resolves to 5, and resolving the press line
fails with -6; setup returns -6 after three calls, with no input device in the
controller. -/
theorem probe_input_device_short_circuit_witness :
    (axp20x_pek_probe_input_device
      { get_irq_dbr := 5, get_irq_dbf := -6, get_virq := fun n => n + 100,
        allocate_ok := true, request_dbr := 0, request_dbf := 0, register_ret := 0 }
      { variant := 0, input := false, info := none, irq_dbr := 0, irq_dbf := 0 }).1 = -6 ∧
    (axp20x_pek_probe_input_device
      { get_irq_dbr := 5, get_irq_dbf := -6, get_virq := fun n => n + 100,
        allocate_ok := true, request_dbr := 0, request_dbf := 0, register_ret := 0 }
      { variant := 0, input := false, info := none, irq_dbr := 0, irq_dbf := 0 }).1 ≠ 0 ∧
    (axp20x_pek_probe_input_device
      { get_irq_dbr := 5, get_irq_dbf := -6, get_virq := fun n => n + 100,
        allocate_ok := true, request_dbr := 0, request_dbf := 0, register_ret := 0 }
      { variant := 0, input := false, info := none, irq_dbr := 0, irq_dbf := 0 }).2.1.input =
      false ∧
    (axp20x_pek_probe_input_device
      { get_irq_dbr := 5, get_irq_dbf := -6, get_virq := fun n => n + 100,
        allocate_ok := true, request_dbr := 0, request_dbf := 0, register_ret := 0 }
      { variant := 0, input := false, info := none, irq_dbr := 0, irq_dbf := 0 }).2.2 =
      [setup_call.get_irq_byname "PEK_DBR", setup_call.get_virq 5,
       setup_call.get_irq_byname "PEK_DBF"] :=
  (probe_input_device_short_circuit
    { get_irq_dbr := 5, get_irq_dbf := -6, get_virq := fun n => n + 100,
      allocate_ok := true, request_dbr := 0, request_dbf := 0, register_ret := 0 }
    { variant := 0, input := false, info := none, irq_dbr := 0, irq_dbf := 0 }).2.1
    (by decide) (by decide)

/-- When the gate lets setup run and `axp20x_pek_probe` succeeds, the two
interrupt ids of the controller are ids setup subscribed to. -/
theorem probe_registered_irqs_subscribed (env : probe_env) (pek : axp20x_pek)
    (hgate : axp20x_pek_should_register_input env.gate
      { variant := env.variant, input := false, info := none, irq_dbr := 0, irq_dbf := 0 } =
      true)
    (hok : (axp20x_pek_probe env).1 = 0) (hpek : (axp20x_pek_probe env).2.1 = some pek) :
    pek.irq_dbf ∈ subscribed_irqs (axp20x_pek_probe env).2.2 ∧
    pek.irq_dbr ∈ subscribed_irqs (axp20x_pek_probe env).2.2 := by
  unfold axp20x_pek_probe at hok hpek ⊢
  cases hid : env.device_id with
  | none => simp [hid] at hpek
  | some info =>
    simp only [hid, hgate, if_true] at hok hpek ⊢
    by_cases hk : env.kzalloc_ok = true
    · simp only [hk, Bool.not_true, Bool.false_eq_true, if_false] at hok hpek ⊢
      revert hok hpek
      unfold axp20x_pek_probe_input_device
      simp only
      split_ifs <;> intro hok hpek <;> simp_all [subscribed_irqs, ENOMEM]
      subst hpek
      simp
    · simp [hk] at hpek

/-- C19 (evaluated at the failing input): an AXP288 on Cherry Trail whose firmware
table declares INTCFD9 attaches successfully without setup running: no
interrupt is subscribed and the controller, zero-filled at allocation, holds
the id 0 twice.  Suspend, and shutdown which runs it, then pass the id 0 to
`disable_irq` (wake not armed) or `enable_irq_wake` (wake armed), and resume
passes it to `enable_irq` or `disable_irq_wake`, although no such id was
resolved or subscribed. -/
theorem power_ops_on_unsubscribed_irq :
    (axp20x_pek_probe
      { device_id := some axp20x_info, kzalloc_ok := true, variant := AXP288_ID,
        gate := { config_input_soc_button_array := true, soc_intel_is_cht := true,
                  acpi_dev_present := fun name => name == "INTCFD9" },
        setup := { get_irq_dbr := 5, get_irq_dbf := 6, get_virq := fun n => n + 100,
                   allocate_ok := true, request_dbr := 0, request_dbf := 0,
                   register_ret := 0 } }).1 = 0 ∧
    subscribed_irqs (axp20x_pek_probe
      { device_id := some axp20x_info, kzalloc_ok := true, variant := AXP288_ID,
        gate := { config_input_soc_button_array := true, soc_intel_is_cht := true,
                  acpi_dev_present := fun name => name == "INTCFD9" },
        setup := { get_irq_dbr := 5, get_irq_dbf := 6, get_virq := fun n => n + 100,
                   allocate_ok := true, request_dbr := 0, request_dbf := 0,
                   register_ret := 0 } }).2.2 = [] ∧
    ∃ pek, (axp20x_pek_probe
      { device_id := some axp20x_info, kzalloc_ok := true, variant := AXP288_ID,
        gate := { config_input_soc_button_array := true, soc_intel_is_cht := true,
                  acpi_dev_present := fun name => name == "INTCFD9" },
        setup := { get_irq_dbr := 5, get_irq_dbf := 6, get_virq := fun n => n + 100,
                   allocate_ok := true, request_dbr := 0, request_dbf := 0,
                   register_ret := 0 } }).2.1 = some pek ∧
      pek.irq_dbf = 0 ∧ pek.irq_dbr = 0 ∧
      ∀ s : irq_state,
        (axp20x_pek_suspend false pek s).2.calls =
          s.calls ++ [irq_call.disable_irq 0, irq_call.disable_irq 0] ∧
        (axp20x_pek_shutdown false pek s).calls =
          s.calls ++ [irq_call.disable_irq 0, irq_call.disable_irq 0] ∧
        (axp20x_pek_resume false pek s).2.calls =
          s.calls ++ [irq_call.enable_irq 0, irq_call.enable_irq 0] ∧
        (axp20x_pek_suspend true pek s).2.calls =
          s.calls ++ [irq_call.enable_irq_wake 0, irq_call.enable_irq_wake 0] ∧
        (axp20x_pek_resume true pek s).2.calls =
          s.calls ++ [irq_call.disable_irq_wake 0, irq_call.disable_irq_wake 0] := by
  refine ⟨by decide, by decide,
    { variant := AXP288_ID, input := false, info := some axp20x_info, irq_dbr := 0,
      irq_dbf := 0 }, by
      simp [axp20x_pek_probe, axp20x_pek_should_register_input], rfl, rfl, fun s => ?_⟩
  simp [axp20x_pek_suspend, axp20x_pek_resume, axp20x_pek_shutdown, disable_irq, enable_irq,
    enable_irq_wake, disable_irq_wake]

/-! ## Writing back what was read -/

/-- Putting the startup field back in place gives the bits of the register
under the startup mask. -/
theorem startup_field_back (r : Nat) :
    ((show_field AXP20X_PEK_STARTUP_MASK r <<< (ffs AXP20X_PEK_STARTUP_MASK - 1)) % 2 ^ 32) &&&
      AXP20X_PEK_STARTUP_MASK = r &&& AXP20X_PEK_STARTUP_MASK := by
  have hs : ffs AXP20X_PEK_STARTUP_MASK - 1 = 6 := by decide
  have hle : r &&& AXP20X_PEK_STARTUP_MASK ≤ 192 := Nat.and_le_right
  have hmod : (r &&& AXP20X_PEK_STARTUP_MASK) % 2 ^ 6 = 0 := by
    rw [← Nat.and_pow_two_sub_one_eq_mod, Nat.and_assoc]
    have h0 : AXP20X_PEK_STARTUP_MASK &&& (2 ^ 6 - 1) = 0 := by decide
    rw [h0]
    exact Nat.and_zero r
  unfold show_field
  rw [hs, Nat.shiftRight_eq_div_pow]
  generalize r &&& AXP20X_PEK_STARTUP_MASK = y at hle hmod ⊢
  have hy : y = 0 ∨ y = 64 ∨ y = 128 ∨ y = 192 := by omega
  rcases hy with h | h | h | h <;> rw [h] <;> decide

/-- Putting the shutdown field back in place gives the bits of the register
under the shutdown mask. -/
theorem shutdown_field_back (r : Nat) :
    ((show_field AXP20X_PEK_SHUTDOWN_MASK r <<< (ffs AXP20X_PEK_SHUTDOWN_MASK - 1)) %
      2 ^ 32) &&& AXP20X_PEK_SHUTDOWN_MASK = r &&& AXP20X_PEK_SHUTDOWN_MASK := by
  have hs : ffs AXP20X_PEK_SHUTDOWN_MASK - 1 = 0 := by decide
  have hle : r &&& AXP20X_PEK_SHUTDOWN_MASK ≤ 3 := Nat.and_le_right
  unfold show_field
  rw [hs, Nat.shiftRight_eq_div_pow]
  generalize r &&& AXP20X_PEK_SHUTDOWN_MASK = y at hle ⊢
  interval_cases y <;> decide

/-- An update that writes the bits the register already has under the mask
leaves a 32-bit register value as it is. -/
theorem update_bits_same (r mask x : Nat) (hr : r < 2 ^ 32) (hm : mask < 2 ^ 32)
    (hx : x &&& mask = r &&& mask) : update_bits_value r mask x = r := by
  unfold update_bits_value
  rw [hx, ← Nat.and_or_distrib_left]
  have hall : u32_not mask ||| mask = 2 ^ 32 - 1 := by
    apply Nat.eq_of_testBit_eq
    intro i
    unfold u32_not
    rw [Nat.mod_eq_of_lt hm]
    by_cases hi : i < 32
    · rw [Nat.testBit_or, Nat.testBit_two_pow_sub_one, show 2 ^ 32 - 1 - mask =
        2 ^ 32 - (mask + 1) by omega, Nat.testBit_two_pow_sub_succ hm]
      simp [hi]
    · have hlt : ∀ y, y < 2 ^ 32 → y.testBit i = false := fun y hy =>
        Nat.testBit_lt_two_pow (lt_of_lt_of_le hy (Nat.pow_le_pow_right (by decide)
          (not_lt.mp hi)))
      rw [Nat.testBit_or, hlt _ (by omega), hlt _ hm, hlt _ (by omega)]
      rfl
  rw [hall]
  exact Nat.and_pow_two_sub_one_of_lt_two_pow hr

/-- On a shipped table a request equal to the duration of an entry selects the
idx of that entry. -/
theorem store_select_shipped_exact (time : Fin 4 → axp20x_time) (i : Fin 4)
    (htab : time = startup_time ∨ time = axp221_startup_time ∨ time = shutdown_time) :
    store_select time (time i).time = (time i).idx := by
  rcases htab with rfl | rfl | rfl <;> fin_cases i <;> decide

/-- C20: on both shipped profiles and for both settings, for every 32-bit register
value `r`, a write that requests the duration the read path decodes from `r`
issues an update whose result `(r & ~mask) | (x & mask)` is `r` again. -/
theorem write_back_read_noop (info : struct_axp20x_info)
    (hinfo : info = axp20x_info ∨ info = axp221_info) (r : Nat) (hr : r < 2 ^ 32) :
    update_bits_value r info.startup_mask
        (store_update_val info.startup_time info.startup_mask
          (show_value info.startup_time info.startup_mask r)) = r ∧
    update_bits_value r info.shutdown_mask
        (store_update_val info.shutdown_time info.shutdown_mask
          (show_value info.shutdown_time info.shutdown_mask r)) = r := by
  have key : ∀ (time : Fin 4 → axp20x_time) (mask : Nat),
      (time = startup_time ∨ time = axp221_startup_time ∨ time = shutdown_time) →
      show_field mask r < 4 → mask < 2 ^ 32 →
      ((show_field mask r <<< (ffs mask - 1)) % 2 ^ 32) &&& mask = r &&& mask →
      update_bits_value r mask (store_update_val time mask (show_value time mask r)) = r := by
    intro time mask htab hf hm hback
    obtain ⟨i, hidx, hval⟩ := show_scan_shipped time _ hf htab
    have hv : show_value time mask r = (time i).time := hval
    apply update_bits_same r mask _ hr hm
    unfold store_update_val
    rw [hv, store_select_shipped_exact time i htab, ← hidx]
    exact hback
  rcases hinfo with rfl | rfl
  · exact ⟨key _ _ (Or.inl rfl) (show_field_startup_lt r) (by decide) (startup_field_back r),
      key _ _ (Or.inr (Or.inr rfl)) (show_field_shutdown_lt r) (by decide)
        (shutdown_field_back r)⟩
  · exact ⟨key _ _ (Or.inr (Or.inl rfl)) (show_field_startup_lt r) (by decide)
        (startup_field_back r),
      key _ _ (Or.inr (Or.inr rfl)) (show_field_shutdown_lt r) (by decide)
        (shutdown_field_back r)⟩

/-- Witness for C20: with the register at 0x9d the startup read decodes 1000 and the
shutdown read 6000; writing each back leaves 0x9d. -/
theorem write_back_read_noop_witness :
    (show_value axp20x_info.startup_time axp20x_info.startup_mask 0x9d = 1000 ∧
      show_value axp20x_info.shutdown_time axp20x_info.shutdown_mask 0x9d = 6000) ∧
    update_bits_value 0x9d axp20x_info.startup_mask
        (store_update_val axp20x_info.startup_time axp20x_info.startup_mask
          (show_value axp20x_info.startup_time axp20x_info.startup_mask 0x9d)) = 0x9d ∧
    update_bits_value 0x9d axp20x_info.shutdown_mask
        (store_update_val axp20x_info.shutdown_time axp20x_info.shutdown_mask
          (show_value axp20x_info.shutdown_time axp20x_info.shutdown_mask 0x9d)) = 0x9d :=
  ⟨by decide, write_back_read_noop axp20x_info (Or.inl rfl) 0x9d (by decide)⟩

end Axp20xPek
